import Mathlib

/-!
# Shallow embedding of the aiosmpplib SMPP v3.4 PDU codec

Translated from `src/aiosmpplib/protocol.py`.  The helper modules
(`state.py`, `codec.py`, `utils.py`) are not part of the sources; the few
pieces of them the codec relies on (`SmppDataCoding`, `OptionalTag`,
`OptionalParam.tlv`, `find_codec_info`, `FixedOffset.from_timezone`) are
modelled from the specification and marked as such in their doc comments.

Conventions:
* Python `bytes` are `List Nat` with every element `< 256` (enforced at the
  points where the source's `struct.pack` / `.encode('ascii')` enforce them).
* Python exceptions are `Except SmppErr`; the distinct failure kinds named by
  the specification's §7 table get distinct constructors.
* Python `str` is Lean `String`; text codecs are explicit `CodecInfo` records.
-/

set_option autoImplicit false

namespace Aiosmpplib

/-- Failure kinds.  Python raises `ValueError`/`KeyError`/`LookupError`/
`UnicodeEncodeError`/`struct.error`; the spec's §7 table names the codec-level
kinds, which we keep distinct so that claims about a *specific* error are
meaningful.  `shortMessageTooLong`, `validityOutOfRange` and `invalidArgument`
are the `ValueError`s raised at protocol.py lines 328, 249 and 194-202/527. -/
inductive SmppErr where
  | invalidArgument
  | shortMessageTooLong
  | validityOutOfRange
  | encodingFailure
  | decodingFailure
  | unknownOptionalTag
  | unknownCommand
  | unknownStatus
  | missingTerminator
  | structError
  | keyError
  | lookupError
  | valueError
  | internalFuel
  deriving DecidableEq, Repr

/-! ## Small Python-mirroring helpers -/

/-- Python `'{:02d}'.format n` for a natural number. -/
def pad2 (n : Nat) : String :=
  if n < 10 then "0" ++ toString n else toString n

/-- Python `'{:02d}'.format i` for an `Int`: zero-pads to width 2; a negative
value keeps its sign, so e.g. `-1` already has width 2 and is left alone. -/
def pad2i (i : Int) : String :=
  if 0 ≤ i then pad2 i.toNat
  else
    let s := toString i
    if s.length = 1 then "0" ++ s else s

/-- Python `int(s)` restricted to an optional sign followed by decimal digits
(raises `ValueError` otherwise). -/
def pyInt (s : String) : Except SmppErr Int :=
  let cs := s.toList
  let core : List Char → Except SmppErr Int := fun ds =>
    if ds ≠ [] ∧ ds.all Char.isDigit then
      .ok (ds.foldl (fun acc c => acc * 10 + (c.toNat - 48)) (0 : Int))
    else .error .valueError
  match cs with
  | '-' :: rest => (core rest).map (fun n => -n)
  | '+' :: rest => core rest
  | _ => core cs

/-- Python `s.encode('ascii')`: strict ASCII encoding of a Python `str`. -/
def asciiEncode (s : String) : Except SmppErr (List Nat) :=
  if s.toList.all (fun c => c.toNat < 128) then
    .ok (s.toList.map Char.toNat)
  else .error .encodingFailure

/-- Python `bs.decode('ascii')`: strict ASCII decoding. -/
def asciiDecode (bs : List Nat) : Except SmppErr String :=
  if bs.all (fun b => b < 128) then
    .ok (String.mk (bs.map Char.ofNat))
  else .error .decodingFailure

/-- Big-endian bytes of `n`, width `w`; `struct.pack` raises on overflow. -/
def packBE (w : Nat) (n : Nat) : Except SmppErr (List Nat) :=
  if n < 2 ^ (8 * w) then
    .ok ((List.range w).reverse.map (fun i => n / 256 ^ i % 256))
  else .error .structError

/-- Python `struct.pack('!B', n)`. -/
def packB (n : Nat) : Except SmppErr (List Nat) := packBE 1 n
/-- Python `struct.pack('!H', n)`. -/
def packH (n : Nat) : Except SmppErr (List Nat) := packBE 2 n
/-- Python `struct.pack('!I', n)`. -/
def packI (n : Nat) : Except SmppErr (List Nat) := packBE 4 n

/-- The slice `pdu[i:i+count]` of a byte string (short slices are permitted,
exactly as in Python). -/
def byteSlice (pdu : List Nat) (i count : Nat) : List Nat :=
  (pdu.drop i).take count

/-- Python `struct.unpack_from` of a `count`-byte big-endian unsigned integer at
offset `i`; raises if the buffer is too short. -/
def getInteger (count : Nat) (pdu : List Nat) (i : Nat) : Except SmppErr Nat :=
  if i + count ≤ pdu.length then
    .ok ((byteSlice pdu i count).foldl (fun acc b => acc * 256 + b) 0)
  else .error .structError

/-- Python `pdu.index(0, i)`: absolute index of the first NUL byte at position `≥ i`
(searching to the end of the byte string, as `bytes.index` does). -/
def findNulFrom (pdu : List Nat) (i : Nat) : Option Nat :=
  ((pdu.drop i).findIdx? (fun b => b = 0)).map (fun k => i + k)

/-- Python `s.find(c, i)` on a list of characters: absolute index or `none`. -/
def charFindFrom (cs : List Char) (c : Char) (i : Nat) : Option Nat :=
  ((cs.drop i).findIdx? (fun d => d = c)).map (fun k => i + k)

/-- The substring `s[a:b]` of a Python string (clamping, as Python slices do). -/
def strSlice (cs : List Char) (a b : Nat) : List Char :=
  (cs.drop a).take (b - a)

/-! ## datetime / timedelta model -/

/-- Python `datetime.timedelta` in its normalized representation:
`0 ≤ seconds < 86400` and `0 ≤ microseconds < 1000000`, with the sign carried
by `days`. -/
structure TimeDelta where
  days : Int
  seconds : Nat
  microseconds : Nat
  deriving DecidableEq, Repr

namespace TimeDelta

/-- The normalization invariant Python maintains. -/
def Normalized (t : TimeDelta) : Prop :=
  t.seconds < 86400 ∧ t.microseconds < 1000000

instance : DecidablePred Normalized := fun _ =>
  inferInstanceAs (Decidable (_ ∧ _))

/-- Total extent in microseconds (the quantity Python compares by). -/
def totalMicro (t : TimeDelta) : Int :=
  (t.days * 86400 + (t.seconds : Int)) * 1000000 + (t.microseconds : Int)

/-- Python `timedelta(days=d, seconds=s)` for integer arguments: Python's
normalization via floor division. -/
def ofDaysSeconds (d s : Int) : TimeDelta :=
  let total : Int := d * 86400 + s
  { days := Int.fdiv total 86400
    seconds := (Int.fmod total 86400).toNat
    microseconds := 0 }

/-- Python truthiness: a `timedelta` is falsy exactly when it is zero. -/
def truthy (t : TimeDelta) : Bool :=
  decide (t.totalMicro ≠ 0)

/-- Python `timedelta(weeks=63)`, the validity-period bound. -/
def weeks63 : TimeDelta := { days := 441, seconds := 0, microseconds := 0 }

/-- Comparison `a > b` on timedeltas. -/
def gt (a b : TimeDelta) : Bool := decide (b.totalMicro < a.totalMicro)

end TimeDelta

/-- Python `datetime.datetime`; `tz` is the fixed UTC offset returned by
`tzinfo.utcoffset`, or `none` for a naive datetime. -/
structure DateTime where
  year : Nat
  month : Nat
  day : Nat
  hour : Nat
  minute : Nat
  second : Nat
  microsecond : Nat
  tz : Option TimeDelta
  deriving DecidableEq, Repr

/-- Gregorian leap year, as Python's `calendar`/`datetime` use. -/
def isLeapYear (y : Nat) : Bool :=
  y % 4 = 0 && (y % 100 ≠ 0 || y % 400 = 0)

/-- Days in a month, for `datetime`'s day-of-month validation. -/
def daysInMonth (y m : Nat) : Nat :=
  if m = 2 then (if isLeapYear y then 29 else 28)
  else if m = 4 ∨ m = 6 ∨ m = 9 ∨ m = 11 then 30
  else 31

/-- The `datetime(...)` constructor: Python validates every field and raises
`ValueError` out of range (`MINYEAR = 1`, `MAXYEAR = 9999`,
`0 ≤ microsecond < 1000000`, ...). -/
def mkDatetime (year month day hour minute second microsecond : Nat)
    (tz : Option TimeDelta) : Except SmppErr DateTime :=
  if 1 ≤ year ∧ year ≤ 9999 ∧ 1 ≤ month ∧ month ≤ 12 ∧
      1 ≤ day ∧ day ≤ daysInMonth year month ∧
      hour < 24 ∧ minute < 60 ∧ second < 60 ∧ microsecond < 1000000 then
    .ok ⟨year, month, day, hour, minute, second, microsecond, tz⟩
  else .error .valueError

/-- Python `time_object.strftime('%y%m%d%H%M%S')`. -/
def DateTime.strftimeYmdHMS (d : DateTime) : String :=
  pad2 (d.year % 100) ++ pad2 d.month ++ pad2 d.day ++
    pad2 d.hour ++ pad2 d.minute ++ pad2 d.second

/-- A schedule-delivery-time / validity-period value: Python lets the field be
either a `datetime` or a `timedelta`. -/
inductive SmppTime where
  | dt (d : DateTime)
  | td (t : TimeDelta)
  deriving DecidableEq, Repr

/-! ## The time codec (`Sm.datetime_to_smpp_time` / `Sm.smpp_time_to_datetime`) -/

/-- Source `Sm.datetime_to_smpp_time` (protocol.py lines 227-262) on a non-`None`
argument.  The `datetime` branch reads the *normalized* `offset.seconds`
component of the UTC offset and the sign from `offset.days`; the `timedelta`
branch rejects durations above 63 weeks and decomposes with 365-day years and
30-day months, using Python's floor division. -/
def datetime_to_smpp_time : SmppTime → Except SmppErr String
  | .dt d =>
    let tenth_second : String := toString (d.microsecond / 100000)
    let offset : Option TimeDelta := d.tz
    let offsetTruthy : Bool := match offset with
      | none => false
      | some o => o.truthy
    let offset_str : String :=
      if offsetTruthy then
        match offset with
        | some o => pad2i ((o.seconds : Int) / 900)
        | none => "00"
      else "00"
    let prefixStr : String :=
      if offsetTruthy then
        match offset with
        | some o => if o.days < 0 then "-" else "+"
        | none => "+"
      else "+"
    .ok (d.strftimeYmdHMS ++ tenth_second ++ offset_str ++ prefixStr)
  | .td t =>
    if t.gt TimeDelta.weeks63 then
      .error .validityOutOfRange
    else
      let total_days : Int := t.days
      let years : String := pad2i (Int.fdiv total_days 365)
      let total_days : Int := Int.fmod total_days 365
      let months : String := pad2i (Int.fdiv total_days 30)
      let days : String := pad2i (Int.fmod total_days 30)
      let total_seconds : Nat := t.seconds
      let hours : String := pad2 (total_seconds / 3600)
      let total_seconds : Nat := total_seconds % 3600
      let minutes : String := pad2 (total_seconds / 60)
      let seconds : String := pad2 (total_seconds % 60)
      .ok (years ++ months ++ days ++ hours ++ minutes ++ seconds ++ "000R")

/-- Source `Sm.datetime_to_smpp_time` on the full `Optional` domain: `None` maps to
the empty string. -/
def datetime_to_smpp_time_opt : Option SmppTime → Except SmppErr String
  | none => .ok ""
  | some t => datetime_to_smpp_time t

/-- Modelled from the spec: `utils.py` is not in src.  §4.4 says the parser
produces "a datetime with a fixed offset derived from `nn` and `p`";
`FixedOffset.from_timezone` receives the two-character quarter-hour count
prefixed by its sign and yields the corresponding UTC offset. -/
def FixedOffset.from_timezone (s : String) : Except SmppErr TimeDelta :=
  match s.toList with
  | '+' :: rest => do
    let n ← pyInt (String.mk rest)
    .ok (TimeDelta.ofDaysSeconds 0 (n * 900))
  | '-' :: rest => do
    let n ← pyInt (String.mk rest)
    .ok (TimeDelta.ofDaysSeconds 0 (-(n * 900)))
  | _ => .error .valueError

/-- Source `Sm.smpp_time_to_datetime` (protocol.py lines 264-293).  Mirrors the
source exactly — including the parse of the tenth-second digit into
`microsecond=tenth_second * 1000000` at line 291. -/
def smpp_time_to_datetime (validity : String) : Except SmppErr (Option SmppTime) := do
  if validity = "" then
    return none
  let cs := validity.toList
  let year ← pyInt (String.mk (strSlice cs 0 2))
  let month ← pyInt (String.mk (strSlice cs 2 4))
  let day ← pyInt (String.mk (strSlice cs 4 6))
  let hour ← pyInt (String.mk (strSlice cs 6 8))
  let minute ← pyInt (String.mk (strSlice cs 8 10))
  let second ← pyInt (String.mk (strSlice cs 10 12))
  if cs.getLast? = some 'R' then
    -- Relative validity: year = 365 days, month = 30 days.
    let total_days : Int := year * 365 + month * 30 + day
    let total_seconds : Int := hour * 3600 + minute * 60 + second
    return some (.td (TimeDelta.ofDaysSeconds total_days total_seconds))
  let tenth_second ← pyInt (String.mk (strSlice cs 12 13))
  let offset_str := String.mk (strSlice cs 15 16 ++ strSlice cs 13 15)
  let offset ← FixedOffset.from_timezone offset_str
  let d ← mkDatetime year.toNat month.toNat day.toNat hour.toNat minute.toNat
    second.toNat (tenth_second.toNat * 1000000) (some offset)
  return some (.dt d)

/-! ## Text codecs (`codec.py` / `state.py` are not in src; modelled from the
spec §4.3 and §3) -/

/-- An encode/decode pair, as resolved by the codec registry.  `encode` takes
the text and the `error_handling` mode; its failure is Python's
`UnicodeEncodeError` (the spec's `EncodingFailure`), `decode`'s failure is
`UnicodeDecodeError`.  The call sites map these to the corresponding
`SmppErr`. -/
structure CodecInfo where
  encode : String → String → Except Unit (List Nat)
  decode : List Nat → Except Unit String

/-- A table of named codecs (the built-in table, or user overrides). -/
def Registry := String → Option CodecInfo

/-- Modelled from the spec: `codec.py`'s `find_codec_info` is not in src.
§4.3: "resolve(name, overrides?) → (encode, decode) ... Overrides win over
built-ins"; an unknown name fails the lookup (Python `LookupError`). -/
def find_codec_info (builtin custom : Registry) (name : String) :
    Except SmppErr CodecInfo :=
  match custom name with
  | some ci => .ok ci
  | none =>
    match builtin name with
    | some ci => .ok ci
    | none => .error .lookupError

/-- Modelled from the spec: `state.py`'s `SmppDataCoding` enum is not in src.
§3: "mapping from encoding name ⇄ one-byte data-coding value"; the names are
those §4.3 lists, with their SMPP §5.2.19 data-coding values.  `0` is the
SMSC default and belongs to no name (§4.3: the selected byte is
`SmppDataCoding[encoding]` or `0` when encoding remains unset). -/
def smppDataCodingTable : List (String × Nat) :=
  [("ascii", 1), ("latin_1", 3), ("shift_jis", 5), ("ucs2", 8)]

/-- Lookup `SmppDataCoding[name].value`; `KeyError` when absent. -/
def dataCodingOfName (name : String) : Option Nat :=
  (smppDataCodingTable.lookup name)

/-- Lookup `SmppDataCoding(value).name`; `ValueError` when absent. -/
def nameOfDataCoding (value : Nat) : Option String :=
  (smppDataCodingTable.find? (fun p => p.2 = value)).map (fun p => p.1)

/-- Python truthiness of the `encoding: Optional[str]` field: `None` and the
empty string are both falsy (`if not self.encoding`). -/
def optStrTruthy : Option String → Bool
  | none => false
  | some s => !(s == "")

/-! ## Optional parameters (TLVs) -/

/-- Modelled from the spec: `state.py`'s `OptionalTag` enum is not in src.
§3 names `MESSAGE_PAYLOAD` (reserved), `SC_INTERFACE_VERSION` and
`RECEIPTED_MESSAGE_ID`, and §4.5 gives each tag a declared value type with a
declared integer width; we carry a representative closed set with one tag of
each declared type.  Wire values are the SMPP §5.3.2 tag codes
(`MESSAGE_PAYLOAD = 0x0424` is fixed by the spec's scenario 2). -/
inductive OptionalTag where
  | MESSAGE_PAYLOAD
  | SC_INTERFACE_VERSION
  | RECEIPTED_MESSAGE_ID
  | ALERT_ON_MESSAGE_DELIVERY
  | USER_MESSAGE_REFERENCE
  deriving DecidableEq, Repr

/-- The declared value type of a tag (§4.5); integer tags carry their
declared byte width. -/
inductive TagType where
  | int (width : Nat)
  | bool
  | str
  deriving DecidableEq, Repr

namespace OptionalTag

/-- Wire value of the tag. -/
def value : OptionalTag → Nat
  | .MESSAGE_PAYLOAD => 0x0424
  | .SC_INTERFACE_VERSION => 0x0210
  | .RECEIPTED_MESSAGE_ID => 0x001E
  | .ALERT_ON_MESSAGE_DELIVERY => 0x130C
  | .USER_MESSAGE_REFERENCE => 0x0204

/-- Lookup `OptionalTag(value)`; raises for values outside the closed set. -/
def ofValue (v : Nat) : Option OptionalTag :=
  if v = 0x0424 then some .MESSAGE_PAYLOAD
  else if v = 0x0210 then some .SC_INTERFACE_VERSION
  else if v = 0x001E then some .RECEIPTED_MESSAGE_ID
  else if v = 0x130C then some .ALERT_ON_MESSAGE_DELIVERY
  else if v = 0x0204 then some .USER_MESSAGE_REFERENCE
  else none

/-- Attribute `tag.data_type` (§4.5). -/
def data_type : OptionalTag → TagType
  | .MESSAGE_PAYLOAD => .str
  | .SC_INTERFACE_VERSION => .int 1
  | .RECEIPTED_MESSAGE_ID => .str
  | .ALERT_ON_MESSAGE_DELIVERY => .bool
  | .USER_MESSAGE_REFERENCE => .int 2

end OptionalTag

/-- A TLV value of one of the three declared kinds. -/
inductive OptValue where
  | int (v : Nat)
  | bool (v : Bool)
  | str (v : String)
  deriving DecidableEq, Repr

/-- Source `OptionalParam`: a typed tag-value pair. -/
structure OptionalParam where
  tag : OptionalTag
  value : OptValue
  deriving DecidableEq, Repr

/-- Modelled from the spec: `state.py`'s `OptionalParam.tlv` is not in src.
§4.5: `tag:u16 | length:u16 | value`, where an int value is big-endian at the
tag's declared width, a bool value serializes with length 0 (presence =
true), and a string value is its raw bytes without NUL. -/
def OptionalParam.tlv (p : OptionalParam) : Except SmppErr (List Nat) := do
  let tagB ← packH p.tag.value
  match p.value, p.tag.data_type with
  | .int v, .int width => do
    let lenB ← packH width
    let valB ← packBE width v
    .ok (tagB ++ lenB ++ valB)
  | .bool _, .bool => do
    let lenB ← packH 0
    .ok (tagB ++ lenB)
  | .str s, .str => do
    let valB ← asciiEncode s
    let lenB ← packH valB.length
    .ok (tagB ++ lenB ++ valB)
  | _, _ => .error .valueError

/-! ## Messages: the `Sm` family -/

/-- Modelled from the spec (`state.py` not in src), §3: `PhoneNumber` is
`{ number: ascii-string, ton: TON, npi: NPI }` with TON/NPI single-byte
enumeration values, which we carry as their byte. -/
structure PhoneNumber where
  number : String
  ton : Nat
  npi : Nat
  deriving DecidableEq, Repr

/-- The fields of an `Sm` (`SubmitSm` / `DeliverSm`), as stored by
`Sm.__init__` (protocol.py lines 204-222).  `command_status` is always
`ESME_ROK = 0` for these messages (the constructor never passes one). -/
structure SmRec where
  short_message : String
  source : PhoneNumber
  destination : PhoneNumber
  service_type : String
  esm_class : Nat
  protocol_id : Nat
  priority_flag : Nat
  schedule_delivery_time : Option SmppTime
  validity_period : Option SmppTime
  registered_delivery : Nat
  replace_if_present_flag : Nat
  encoding : Option String
  sm_default_msg_id : Nat
  message_payload : String
  optional_params : List OptionalParam
  auto_message_payload : Bool
  error_handling : String
  sequence_num : Nat
  log_id : String
  extra_data : String
  deriving DecidableEq, Repr

/-- Source `Sm.__init__` validation (protocol.py lines 192-202): `MESSAGE_PAYLOAD`
may not appear among the optional parameters, and exactly one of
`short_message` / `message_payload` must be non-empty.  All failures are
`ValueError` (the spec's `InvalidArgument`); on failure no object is
created. -/
def mkSm (m : SmRec) : Except SmppErr SmRec :=
  if m.optional_params.any (fun p => p.tag = OptionalTag.MESSAGE_PAYLOAD) then
    .error .invalidArgument
  else if m.short_message = "" ∧ m.message_payload = "" then
    .error .invalidArgument
  else if m.short_message ≠ "" ∧ m.message_payload ≠ "" then
    .error .invalidArgument
  else
    .ok m

/-- Source `SubmitSm.__init__` (protocol.py lines 525-533): an empty `log_id` is
rejected before the `Sm` validation runs. -/
def mkSubmitSm (m : SmRec) : Except SmppErr SmRec :=
  if m.log_id = "" then .error .invalidArgument
  else mkSm m

/-- A value of the delivery-receipt map (Python stores strings, ints and
datetimes in the same dict). -/
inductive ReceiptValue where
  | s (v : String)
  | i (v : Int)
  | dt (v : DateTime)
  | b (v : Bool)
  deriving DecidableEq, Repr

/-- The `receipt` dict: an insertion-ordered map. -/
def Receipt := List (String × ReceiptValue)

/-- A `DeliverSm`: the shared `Sm` fields plus the optional receipt. -/
structure DeliverSmRec where
  sm : SmRec
  receipt : Option (List (String × ReceiptValue))
  deriving DecidableEq, Repr

/-- Source `DeliverSm.__init__` on the decode path: `Sm.from_pdu` constructs the
message with `receipt=None`, so the receipt-synthesis branch (lines 589-606)
is skipped and the constructor reduces to the `Sm` validation. -/
def mkDeliverSmOfWire (m : SmRec) : Except SmppErr DeliverSmRec :=
  (mkSm m).map (fun r => ⟨r, none⟩)

/-- The encoding configuration an `Sm` carries when encoding / that decoding
receives: the built-in codec table, the user overrides (`custom_codecs`) and
the configured `default_encoding`. -/
structure EncodingCfg where
  builtin : Registry
  custom : Registry
  default_encoding : String

/-- Source `Sm.smpp_encode` (protocol.py lines 300-313).  Returns the encoded bytes
together with the (possibly updated) `encoding` field: with no explicit
encoding the configured default is tried first and a `UnicodeEncodeError`
falls back to `ucs2`, pinning `encoding = 'ucs2'`; an explicit encoding is
used with no fallback.  Lookup failures (`LookupError`) are not caught. -/
def smpp_encode (cfg : EncodingCfg) (encoding : Option String)
    (error_handling : String) (text : String) :
    Except SmppErr (List Nat × Option String) :=
  if optStrTruthy encoding = false then
    match find_codec_info cfg.builtin cfg.custom cfg.default_encoding with
    | .error e => .error e
    | .ok codec_info =>
      match codec_info.encode text error_handling with
      | .ok result => .ok (result, encoding)
      | .error _ =>
        -- `except UnicodeEncodeError:` — retry with ucs2
        match find_codec_info cfg.builtin cfg.custom "ucs2" with
        | .error e => .error e
        | .ok codec_info2 =>
          match codec_info2.encode text error_handling with
          | .ok result => .ok (result, some "ucs2")
          | .error _ => .error .encodingFailure
  else
    match encoding with
    | some name =>
      match find_codec_info cfg.builtin cfg.custom name with
      | .error e => .error e
      | .ok codec_info =>
        match codec_info.encode text error_handling with
        | .ok result => .ok (result, encoding)
        | .error _ => .error .encodingFailure
    | none => .error .lookupError  -- unreachable: truthiness needs `some`

/-- The intermediate values `Sm.pdu` (protocol.py lines 315-333) computes
before assembling the body: the text bytes, the data-coding byte, the
`sm_length` byte, and the promoted `MESSAGE_PAYLOAD` TLV bytes.  The order
mirrors the source: encode, select `data_coding` (a `KeyError` if the now-set
encoding is not an `SmppDataCoding` name), measure, reject an oversized
`short_message` when auto-promotion is off, then promote. -/
structure SmParts where
  encoded_short_message : List Nat
  encoded_message_payload : List Nat
  data_coding : Nat
  sm_length : Nat
  new_encoding : Option String
  deriving Repr

/-- Python `self.short_message or self.message_payload`: the text `Sm.pdu` encodes
(Python `or` picks the first truthy operand). -/
def Sm.textToEncode (m : SmRec) : String :=
  if m.short_message ≠ "" then m.short_message else m.message_payload

/-- The `data_coding` selection in `Sm.pdu` (protocol.py lines 320-323),
applied to the encoding field *after* `smpp_encode` possibly pinned it:
`SmppDataCoding[self.encoding].value` when truthy (a `KeyError` if the name
is not a member), else `0` (SMSC default). -/
def dcSelect (e' : Option String) : Except SmppErr Nat :=
  if optStrTruthy e' then
    match dataCodingOfName (e'.getD "") with
    | some v => .ok v
    | none => .error .keyError
  else .ok 0

def Sm.pduParts (cfg : EncodingCfg) (m : SmRec) : Except SmppErr SmParts :=
  match smpp_encode cfg m.encoding m.error_handling (Sm.textToEncode m) with
  | .error e => .error e
  | .ok (encoded0, newEnc) =>
    match dcSelect newEnc with
    | .error e => .error e
    | .ok data_coding =>
      let sm_length := encoded0.length
      if 254 < sm_length ∧ m.short_message ≠ "" ∧ m.auto_message_payload = false then
        .error .shortMessageTooLong
      else if 254 < sm_length ∨ m.message_payload ≠ "" then
        match packH OptionalTag.MESSAGE_PAYLOAD.value, packH sm_length with
        | .ok tagB, .ok lenB =>
          .ok ⟨[], tagB ++ lenB ++ encoded0, data_coding, 0, newEnc⟩
        | .error e, _ => .error e
        | _, .error e => .error e
      else
        .ok ⟨encoded0, [], data_coding, sm_length, newEnc⟩

/-- Source `SmppMessage.pack_header` (protocol.py line 62):
`pack('!IIII', pdu_len, command, status, sequence_num)`.  `Sm` messages carry
`command_status = ESME_ROK = 0`. -/
def pack_header (pdu_len command status sequence_num : Nat) :
    Except SmppErr (List Nat) := do
  let a ← packI pdu_len
  let b ← packI command
  let c ← packI status
  let d ← packI sequence_num
  .ok (a ++ b ++ c ++ d)

/-- Python `b''.join(opt_param.tlv for opt_param in self.optional_params)`. -/
def tlvBytes : List OptionalParam → Except SmppErr (List Nat)
  | [] => .ok []
  | p :: rest => do
    let b ← p.tlv
    let bs ← tlvBytes rest
    .ok (b ++ bs)

/-- The body assembly of `Sm.pdu` (protocol.py lines 335-352) from the
computed parts, and the final header prefix.  `command` is the wire command id
of the concrete subclass (`submit_sm = 4`, `deliver_sm = 5`). -/
def Sm.assemble (command : Nat) (m : SmRec) (p : SmParts) :
    Except SmppErr (List Nat) := do
  let serviceB ← asciiEncode m.service_type
  let srcTon ← packB m.source.ton
  let srcNpi ← packB m.source.npi
  let srcNum ← asciiEncode m.source.number
  let dstTon ← packB m.destination.ton
  let dstNpi ← packB m.destination.npi
  let dstNum ← asciiEncode m.destination.number
  let esmB ← packB m.esm_class
  let pidB ← packB m.protocol_id
  let prioB ← packB m.priority_flag
  let schedS ← datetime_to_smpp_time_opt m.schedule_delivery_time
  let schedB ← asciiEncode schedS
  let validS ← datetime_to_smpp_time_opt m.validity_period
  let validB ← asciiEncode validS
  let regB ← packB m.registered_delivery
  let replB ← packB m.replace_if_present_flag
  let dcB ← packB p.data_coding
  let smDefB ← packB m.sm_default_msg_id
  let smLenB ← packB p.sm_length
  let tlvs ← tlvBytes m.optional_params
  let body : List Nat :=
    serviceB ++ [0] ++ srcTon ++ srcNpi ++ srcNum ++ [0] ++
    dstTon ++ dstNpi ++ dstNum ++ [0] ++
    esmB ++ pidB ++ prioB ++
    schedB ++ [0] ++ validB ++ [0] ++
    regB ++ replB ++ dcB ++ smDefB ++ smLenB ++
    p.encoded_short_message ++ p.encoded_message_payload ++ tlvs
  let header ← pack_header (16 + body.length) command 0 m.sequence_num
  .ok (header ++ body)

/-- Source `Sm.pdu` (protocol.py lines 315-352). -/
def Sm.pdu (cfg : EncodingCfg) (command : Nat) (m : SmRec) :
    Except SmppErr (List Nat) :=
  match Sm.pduParts cfg m with
  | .error e => .error e
  | .ok p => Sm.assemble command m p

/-- Source `SmppCommand.SUBMIT_SM` / `SmppCommand.DELIVER_SM` wire values (the
`SmppCommand` enum lives in `state.py`, modelled from the spec: "Wire values
per SMPP spec"). -/
def SUBMIT_SM : Nat := 0x00000004
def DELIVER_SM : Nat := 0x00000005
def BIND_TRANSCEIVER_RESP : Nat := 0x80000009

/-- The closed `SmppCommand` wire-value set (modelled from the spec §3:
"closed enumeration ... Wire values per SMPP spec"); `parse_header` raises on
unknown ids. -/
def knownCommands : List Nat :=
  [0x80000000, 0x00000004, 0x80000004, 0x00000005, 0x80000005,
   0x00000009, 0x80000009, 0x00000015, 0x80000015, 0x00000006, 0x80000006]

/-- Sample of the closed `SmppCommandStatus` value set (modelled from the
spec §3: "closed enumeration of SMPP error codes; `ESME_ROK = 0`"). -/
def knownStatuses : List Nat := [0x0, 0x1, 0x2, 0x3, 0x8, 0xFF]

/-- Source `PduHeader` (pre-parsed 16-byte header). -/
structure PduHeader where
  pdu_length : Nat
  smpp_command : Nat
  command_status : Nat
  sequence_num : Nat
  deriving DecidableEq, Repr

/-- Source `SmppMessage.parse_header` (protocol.py lines 68-81): four big-endian
u32 reads, with the command and status validated against their closed
enumerations. -/
def parse_header (header_data : List Nat) : Except SmppErr PduHeader := do
  let pdu_length ← getInteger 4 header_data 0
  let command_id ← getInteger 4 header_data 4
  let command_status_id ← getInteger 4 header_data 8
  let sequence_num ← getInteger 4 header_data 12
  if knownCommands.contains command_id then
    if knownStatuses.contains command_status_id then
      .ok ⟨pdu_length, command_id, command_status_id, sequence_num⟩
    else .error .unknownStatus
  else .error .unknownCommand

/-! ## `Sm.from_pdu` (protocol.py lines 354-452) -/

/-- Source `get_c_octet_string`: scan for the NUL terminator from `i` (a
`ValueError` from `bytes.index` if absent), ASCII-decode the bytes before it,
and step past the NUL. -/
def get_c_octet_string (pdu : List Nat) (i : Nat) :
    Except SmppErr (String × Nat) :=
  match findNulFrom pdu i with
  | none => .error .missingTerminator
  | some str_end => do
    let s ← asciiDecode (byteSlice pdu i (str_end - i))
    .ok (s, str_end + 1)

/-- Source `get_octet_string(count)`: ASCII-decode `count` bytes (short reads allowed
by the Python slice), stripping one trailing NUL if present; the index always
advances by `count`. -/
def get_octet_string (pdu : List Nat) (i count : Nat) :
    Except SmppErr String := do
  let s ← asciiDecode (byteSlice pdu i count)
  if s.toList.getLast? = some (Char.ofNat 0) then
    .ok (String.mk (s.toList.dropLast))
  else
    .ok s

/-- One step of the optional-parameter loop (protocol.py lines 412-429),
written with explicit fuel.  Each iteration consumes at least 4 bytes of the
region, so the initial fuel `pdu_length + 1` is never exhausted; the
`internalFuel` error is unreachable from `Sm.from_pdu`.  Mirrors the source:
a `MESSAGE_PAYLOAD` TLV is decoded through the message codec and assigned to
`message_payload` (later occurrences overwrite), int TLVs read at the wire
length (only widths 1/2/4 are supported), bool TLVs append `True` *without*
advancing past the value, and any other tag reads a counted octet string. -/
def parseTlvLoop (codec_info : CodecInfo) (pdu : List Nat) (pdu_length : Nat) :
    Nat → Nat → String → List OptionalParam →
    Except SmppErr (List OptionalParam × String)
  | 0, _, _, _ => .error .internalFuel
  | fuel + 1, i, message_payload, acc =>
    if i < pdu_length then
      match getInteger 2 pdu i with
      | .error e => .error e
      | .ok tagv =>
        match getInteger 2 pdu (i + 2) with
        | .error e => .error e
        | .ok length =>
          match OptionalTag.ofValue tagv with
          | none => .error .unknownOptionalTag
          | some tag =>
            if tag = OptionalTag.MESSAGE_PAYLOAD then
              match codec_info.decode (byteSlice pdu (i + 4) length) with
              | .error _ => .error .decodingFailure
              | .ok mp =>
                parseTlvLoop codec_info pdu pdu_length fuel
                  (i + 4 + length) mp acc
            else
              match tag.data_type with
              | .int _ =>
                if length = 1 ∨ length = 2 ∨ length = 4 then
                  match getInteger length pdu (i + 4) with
                  | .error e => .error e
                  | .ok v =>
                    parseTlvLoop codec_info pdu pdu_length fuel
                      (i + 4 + length) message_payload
                      (acc ++ [⟨tag, .int v⟩])
                else .error .keyError
              | .bool =>
                parseTlvLoop codec_info pdu pdu_length fuel (i + 4)
                  message_payload (acc ++ [⟨tag, .bool true⟩])
              | .str =>
                match get_octet_string pdu (i + 4) length with
                | .error e => .error e
                | .ok s =>
                  parseTlvLoop codec_info pdu pdu_length fuel
                    (i + 4 + length) message_payload
                    (acc ++ [⟨tag, .str s⟩])
    else
      .ok (acc, message_payload)

/-- Everything `Sm.from_pdu` reads off the wire before invoking the
constructor: the body fields in order, the resolved encoding name, the
on-wire `sm_length`, the decoded `short_message`, the optional parameters and
the (possibly TLV-borne) `message_payload`. -/
structure SmRaw where
  service_type : String
  source : PhoneNumber
  destination : PhoneNumber
  esm_class : Nat
  protocol_id : Nat
  priority_flag : Nat
  schedule_delivery_time : String
  validity_period : String
  registered_delivery : Nat
  replace_if_present_flag : Nat
  data_coding : Nat
  encoding : String
  sm_default_msg_id : Nat
  sm_length : Nat
  short_message : String
  message_payload : String
  optional_params : List OptionalParam
  deriving Repr

/-- The parsing phase of `Sm.from_pdu` (protocol.py lines 383-429): body
fields in source order, the codec chosen from `data_coding` (falling back to
the caller's `default_encoding` when it is zero), the `sm_length`-byte short
message decoded through it, then the TLV loop up to `header.pdu_length`. -/
def smParseRaw (cfg : EncodingCfg) (pdu : List Nat) (header : PduHeader) :
    Except SmppErr SmRaw := do
  let i := 16
  let (service_type, i) ← get_c_octet_string pdu i
  let source_ton ← getInteger 1 pdu i
  let source_npi ← getInteger 1 pdu (i + 1)
  let (source_number, i) ← get_c_octet_string pdu (i + 2)
  let dest_ton ← getInteger 1 pdu i
  let dest_npi ← getInteger 1 pdu (i + 1)
  let (dest_number, i) ← get_c_octet_string pdu (i + 2)
  let esm_class ← getInteger 1 pdu i
  let protocol_id ← getInteger 1 pdu (i + 1)
  let priority_flag ← getInteger 1 pdu (i + 2)
  let (schedule_delivery_time, i) ← get_c_octet_string pdu (i + 3)
  let (validity_period, i) ← get_c_octet_string pdu i
  let registered_delivery ← getInteger 1 pdu i
  let replace_if_present_flag ← getInteger 1 pdu (i + 1)
  let data_coding ← getInteger 1 pdu (i + 2)
  let encoding ← if data_coding ≠ 0 then
      match nameOfDataCoding data_coding with
      | some name => pure name
      | none => throw .valueError
    else
      pure cfg.default_encoding
  let codec_info ← find_codec_info cfg.builtin cfg.custom encoding
  let sm_default_msg_id ← getInteger 1 pdu (i + 3)
  let sm_length ← getInteger 1 pdu (i + 4)
  let short_message ← match codec_info.decode (byteSlice pdu (i + 5) sm_length) with
    | .ok s => pure s
    | .error _ => throw SmppErr.decodingFailure
  let i := i + 5 + sm_length
  let (optional_params, message_payload) ←
    parseTlvLoop codec_info pdu header.pdu_length (header.pdu_length + 1) i "" []
  return {
    service_type := service_type
    source := ⟨source_number, source_ton, source_npi⟩
    destination := ⟨dest_number, dest_ton, dest_npi⟩
    esm_class := esm_class
    protocol_id := protocol_id
    priority_flag := priority_flag
    schedule_delivery_time := schedule_delivery_time
    validity_period := validity_period
    registered_delivery := registered_delivery
    replace_if_present_flag := replace_if_present_flag
    data_coding := data_coding
    encoding := encoding
    sm_default_msg_id := sm_default_msg_id
    sm_length := sm_length
    short_message := short_message
    message_payload := message_payload
    optional_params := optional_params
  }

/-- The constructor call at the end of `Sm.from_pdu` (protocol.py lines
431-452): the schedule and validity strings go through
`smpp_time_to_datetime`, and the message is created with
`auto_message_payload=True`, `error_handling='strict'`, and empty `log_id` /
`extra_data`. -/
def smArgsOfRaw (raw : SmRaw) (header : PduHeader) :
    Except SmppErr SmRec := do
  let sched ← smpp_time_to_datetime raw.schedule_delivery_time
  let valid ← smpp_time_to_datetime raw.validity_period
  return {
    short_message := raw.short_message
    source := raw.source
    destination := raw.destination
    service_type := raw.service_type
    esm_class := raw.esm_class
    protocol_id := raw.protocol_id
    priority_flag := raw.priority_flag
    schedule_delivery_time := sched
    validity_period := valid
    registered_delivery := raw.registered_delivery
    replace_if_present_flag := raw.replace_if_present_flag
    encoding := some raw.encoding
    sm_default_msg_id := raw.sm_default_msg_id
    message_payload := raw.message_payload
    optional_params := raw.optional_params
    auto_message_payload := true
    error_handling := "strict"
    sequence_num := header.sequence_num
    log_id := ""
    extra_data := ""
  }

/-- Source `SubmitSm.from_pdu` — `Sm.from_pdu` with `cls = SubmitSm`, so the final
constructor call is `SubmitSm.__init__` (which rejects the empty `log_id`
that `Sm.from_pdu` always passes). -/
def SubmitSm.from_pdu (cfg : EncodingCfg) (pdu : List Nat)
    (header : PduHeader) : Except SmppErr SmRec := do
  let raw ← smParseRaw cfg pdu header
  let args ← smArgsOfRaw raw header
  mkSubmitSm args

/-- The `super().from_pdu(...)` step of `DeliverSm.from_pdu`: `Sm.from_pdu`
with `cls = DeliverSm`, receipt not yet extracted. -/
def DeliverSm.base_from_pdu (cfg : EncodingCfg) (pdu : List Nat)
    (header : PduHeader) : Except SmppErr DeliverSmRec := do
  let raw ← smParseRaw cfg pdu header
  let args ← smArgsOfRaw raw header
  mkDeliverSmOfWire args

/-! ## `DeliverSm.from_pdu` receipt extraction (protocol.py lines 612-665) -/

/-- Python `datetime.strptime(value, '%y%m%d%H%M')`: exactly ten digits, two per
field, with `%y` mapping 00-68 to 20xx and 69-99 to 19xx, validated by the
`datetime` constructor. -/
def strptime_yMdHM (v : String) : Except SmppErr DateTime := do
  let cs := v.toList
  if cs.length = 10 ∧ cs.all Char.isDigit then
    let d2 : Nat → Nat := fun k =>
      (cs.get! k).toNat * 10 + (cs.get! (k + 1)).toNat - (48 * 10 + 48)
    let yy := d2 0
    let year := if yy ≤ 68 then 2000 + yy else 1900 + yy
    mkDatetime year (d2 2) (d2 4) (d2 6) (d2 8) 0 0 none
  else .error .valueError

/-- Assignment into the receipt dict (`rcpt_data[param] = value`): existing
keys are overwritten in place, new keys append. -/
def receiptInsert (m : List (String × ReceiptValue)) (k : String)
    (v : ReceiptValue) : List (String × ReceiptValue) :=
  if m.any (fun p => p.1 = k) then
    m.map (fun p => if p.1 = k then (k, v) else p)
  else m ++ [(k, v)]

/-- One `get_receipt_param` call (protocol.py lines 615-628): scan for the
next `':'`, lower-case the key, then take the value up to the next space —
or to the end of the string when there is no space or the key is `text`.
Returns the pair and the new index, or `none` at end of input. -/
def get_receipt_param (cs : List Char) (i : Nat) :
    Option (String × String × Nat) :=
  match charFindFrom cs ':' i with
  | none => none
  | some colon =>
    let param := String.mk ((strSlice cs i colon).map Char.toLower)
    let i := colon + 1
    let str_end :=
      match charFindFrom cs ' ' i with
      | none => cs.length
      | some j => if param = "text" then cs.length else j
    let value := String.mk (strSlice cs i str_end)
    some (param, value, str_end + 1)

/-- The receipt `while True:` loop (protocol.py lines 641-652), with fuel.
Each iteration advances the index by at least 2, so fuel `cs.length + 2`
never runs out; `internalFuel` is unreachable from `DeliverSm.from_pdu`.
`sub`/`dlvrd` parse as ints, `submit date`/`done date` as `%y%m%d%H%M`
datetimes, and everything else is kept as a string. -/
def receiptLoop (cs : List Char) :
    Nat → Nat → List (String × ReceiptValue) →
    Except SmppErr (List (String × ReceiptValue))
  | 0, _, _ => .error .internalFuel
  | fuel + 1, i, rcpt_data =>
    match get_receipt_param cs i with
    | none => .ok rcpt_data
    | some (param, value, i') =>
      if param = "sub" ∨ param = "dlvrd" then
        match pyInt value with
        | .error e => .error e
        | .ok n => receiptLoop cs fuel i' (receiptInsert rcpt_data param (.i n))
      else if param = "submit date" ∨ param = "done date" then
        match strptime_yMdHM value with
        | .error e => .error e
        | .ok d => receiptLoop cs fuel i' (receiptInsert rcpt_data param (.dt d))
      else
        receiptLoop cs fuel i' (receiptInsert rcpt_data param (.s value))

/-- Python truthiness of a receipt value (`if not smsc_message_id`). -/
def receiptValueTruthy : Option ReceiptValue → Bool
  | none => false
  | some (.s v) => !(v == "")
  | some (.i v) => !(v == 0)
  | some (.dt _) => true
  | some (.b v) => v

/-- Attribute `OptionalParam.value` injected into the receipt dict for the
`RECEIPTED_MESSAGE_ID` fallback. -/
def receiptValueOfOptValue : OptValue → ReceiptValue
  | .int v => .i v
  | .bool v => .b v
  | .str v => .s v

/-- Source `DeliverSm.from_pdu` (protocol.py lines 612-665): parse as an `Sm`, and
when the esm_class message-type bits equal 1, parse the decoded
`short_message` as a receipt, falling back to the `RECEIPTED_MESSAGE_ID` TLV
when the parsed map has no truthy `id`. -/
def DeliverSm.from_pdu (cfg : EncodingCfg) (pdu : List Nat)
    (header : PduHeader) : Except SmppErr DeliverSmRec := do
  let deliver_sm ← DeliverSm.base_from_pdu cfg pdu header
  let message_class := (deliver_sm.sm.esm_class &&& 0b00111100) >>> 2
  if message_class = 1 then
    let cs := deliver_sm.sm.short_message.toList
    let rcpt_data ← receiptLoop cs (cs.length + 2) 0 []
    let smsc_message_id := (rcpt_data.find? (fun p => p.1 = "id")).map Prod.snd
    let rcpt_data :=
      if receiptValueTruthy smsc_message_id then rcpt_data
      else
        match deliver_sm.sm.optional_params.find?
            (fun p => p.tag = OptionalTag.RECEIPTED_MESSAGE_ID) with
        | some id_param =>
          receiptInsert rcpt_data "id" (receiptValueOfOptValue id_param.value)
        | none => rcpt_data
    return { deliver_sm with receipt := some rcpt_data }
  else
    return deliver_sm

/-! ## `BindTransceiverResp.from_pdu` (protocol.py lines 810-824) -/

/-- The fields of a `BindTransceiverResp`. -/
structure BindTransceiverRespRec where
  system_id : String
  sequence_num : Nat
  command_status : Nat
  sc_interface_version : Option Nat
  deriving DecidableEq, Repr

/-- Source `BindTransceiverResp.from_pdu`: read the `system_id` C-octet string; if
any bytes remain before `pdu_length`, skip the 4-byte TLV header and read the
version byte only when exactly one byte then remains
(`index + 1 == header.pdu_length`). -/
def BindTransceiverResp.from_pdu (pdu : List Nat) (header : PduHeader) :
    Except SmppErr BindTransceiverRespRec := do
  let index ← match findNulFrom pdu 16 with
    | none => throw .missingTerminator
    | some j => pure j
  let system_id ← asciiDecode (byteSlice pdu 16 (index - 16))
  let index := index + 1
  let sc_interface_version ←
    if index < header.pdu_length then
      let index := index + 4
      if index + 1 = header.pdu_length then do
        let v ← getInteger 1 pdu index
        pure (some v)
      else pure none
    else pure none
  return ⟨system_id, header.sequence_num, header.command_status,
    sc_interface_version⟩

/-! ## Spec-side formulas referenced by the claims -/

/-- The output format claim C3 specifies for the absolute branch:
`YYMMDDhhmmsstnnp` with `nn = floor(|offset_seconds| / 900)` and `p` the sign
of the offset (`'00+'` when no timezone is attached). -/
def specAbsoluteTimeC3 (d : DateTime) : String :=
  let base := d.strftimeYmdHMS ++ toString (d.microsecond / 100000)
  match d.tz with
  | none => base ++ "00" ++ "+"
  | some o =>
    base ++ pad2i (|o.totalMicro| / 1000000 / 900) ++
      (if o.totalMicro < 0 then "-" else "+")

/-- The relative format claim C4 specifies: `YYMMDDhhmmss000R` from the
365-day-year / 30-day-month decomposition of a (non-negative) duration. -/
def specRelativeTimeC4 (days seconds : Nat) : String :=
  pad2 (days / 365) ++ pad2 (days % 365 / 30) ++ pad2 (days % 365 % 30) ++
  pad2 (seconds / 3600) ++ pad2 (seconds % 3600 / 60) ++ pad2 (seconds % 60) ++
  "000R"

/-- The registry/table coherence assumption claims C5 requires: every
encoding name the registry can resolve is an `SmppDataCoding` member.
`codec.py` and `state.py` are not in src; per the spec §4.3 the built-in
names "align with SMPP §5.2.19", i.e. with the data-coding table, and
protocol.py's own docstring restricts `encoding` to "one of the encodings
recognised by the SMPP specification". -/
def AlignedRegistry (cfg : EncodingCfg) : Prop :=
  ∀ name ci, find_codec_info cfg.builtin cfg.custom name = .ok ci →
    (dataCodingOfName name).isSome = true

/-! ## Concrete material for claim inputs and witnesses -/

/-- The claim's failing input for C2:
`datetime(2024, 1, 1, microsecond=100000)`, naive, microsecond a multiple of
100000 as the claim requires. -/
def c2FailingInput : DateTime := ⟨2024, 1, 1, 0, 0, 0, 100000, none⟩

/-- The claim's failing input for C3: 2024-01-01 00:00:00 at UTC offset
−1 hour, i.e. the normalized Python timedelta `(days = -1, seconds = 82800)`. -/
def c3FailingInput : DateTime := ⟨2024, 1, 1, 0, 0, 0, 0, some ⟨-1, 82800, 0⟩⟩

/-- Claim C4's example: 2 days + 3 hours + 4 minutes + 5 seconds. -/
def c4Example : TimeDelta := ⟨2, 3 * 3600 + 4 * 60 + 5, 0⟩

/-- A strict one-byte-per-character codec (witness stand-in for `ascii`). -/
def asciiCodec : CodecInfo where
  encode := fun s _ => (asciiEncode s).mapError (fun _ => ())
  decode := fun bs => (asciiDecode bs).mapError (fun _ => ())

/-- A total two-byte-per-character codec (witness stand-in for `ucs2`). -/
def wideCodec : CodecInfo where
  encode := fun s _ =>
    .ok (s.toList.foldr (fun c acc => c.toNat / 256 % 256 :: c.toNat % 256 :: acc) [])
  decode := fun _ => .error ()

/-- Witness configuration: built-ins for exactly the `SmppDataCoding` names
(`ucs2` wide, the rest strict one-byte), no overrides, default `ascii`. -/
def wCfg : EncodingCfg where
  builtin := fun name =>
    if name = "ucs2" then some wideCodec
    else if (dataCodingOfName name).isSome then some asciiCodec
    else none
  custom := fun _ => none
  default_encoding := "ascii"

/-- A well-formed `SubmitSm`, used as C1's failing input. -/
def c1Message : SmRec where
  short_message := "hi"
  source := ⟨"1", 1, 1⟩
  destination := ⟨"2", 1, 1⟩
  service_type := "CMT"
  esm_class := 3
  protocol_id := 0
  priority_flag := 0
  schedule_delivery_time := none
  validity_period := none
  registered_delivery := 1
  replace_if_present_flag := 0
  encoding := some "ascii"
  sm_default_msg_id := 0
  message_payload := ""
  optional_params := []
  auto_message_payload := true
  error_handling := "strict"
  sequence_num := 1
  log_id := "L1"
  extra_data := ""

/-- The claim C1 round-trip pipeline at a concrete message:
`from_pdu(pdu(m), parse_header(pdu(m)[0..16]))` with the same configuration
on both sides. -/
def c1RoundTrip : Except SmppErr SmRec := do
  let bs ← Sm.pdu wCfg SUBMIT_SM c1Message
  let header ← parse_header (bs.take 16)
  SubmitSm.from_pdu wCfg bs header

/-- C5's witness message: a 300-character `short_message` with
auto-promotion disabled. -/
def c5Message : SmRec :=
  { c1Message with
    short_message := String.mk (List.replicate 300 'a')
    encoding := none
    auto_message_payload := false }

/-- Claim C7's receipt text. -/
def c7ReceiptText : String :=
  "id:abc sub:001 dlvrd:001 submit date:2401011200 done date:2401011201 stat:DELIVRD err:000 Text:hello"

/-- The receipt map claim C7 expects from `c7ReceiptText`. -/
def c7ExpectedReceipt : List (String × ReceiptValue) :=
  [("id", .s "abc"), ("sub", .i 1), ("dlvrd", .i 1),
   ("submit date", .dt ⟨2024, 1, 1, 12, 0, 0, 0, none⟩),
   ("done date", .dt ⟨2024, 1, 1, 12, 1, 0, 0, none⟩),
   ("stat", .s "DELIVRD"), ("err", .s "000"), ("text", .s "hello")]

/-- C7's witness message: a `DeliverSm` carrying `c7ReceiptText` with the
delivery-receipt esm_class. -/
def c7Message : SmRec :=
  { c1Message with short_message := c7ReceiptText, esm_class := 4 }

/-- The witness `deliver_sm` PDU for C7 (encoding `c7Message`). -/
def c7Pdu : List Nat :=
  match Sm.pdu wCfg DELIVER_SM c7Message with
  | .ok bs => bs
  | .error _ => []

/-- The parsed header of `c7Pdu`. -/
def c7Header : PduHeader :=
  match parse_header (c7Pdu.take 16) with
  | .ok h => h
  | .error _ => ⟨0, 0, 0, 0⟩

/-- C10's witness: an (ill-formed per the constructor invariant) `deliver_sm`
PDU with `sm_length = 0` and no `MESSAGE_PAYLOAD` TLV. -/
def c10Pdu : List Nat :=
  [0, 0, 0, 33, 0, 0, 0, 5, 0, 0, 0, 0, 0, 0, 0, 1] ++
  [67, 77, 84, 0] ++                -- service_type 'CMT'
  [1, 1, 49, 0] ++                  -- source TON/NPI, '1'
  [1, 1, 50, 0] ++                  -- destination TON/NPI, '2'
  [0, 0, 0] ++                      -- esm_class, protocol_id, priority_flag
  [0] ++ [0] ++                     -- empty schedule / validity strings
  [1, 0] ++                         -- registered_delivery, replace_if_present
  [1, 0, 0]                         -- data_coding=1 (ascii), sm_default, sm_length=0

/-- The header of `c10Pdu`. -/
def c10Header : PduHeader := ⟨33, 5, 0, 1⟩

/-- C8's witness PDU: `system_id 'sys'` then the 5-byte tail
`0x0210 0x0001 0x34`. -/
def c8Pdu : List Nat :=
  [0, 0, 0, 25, 0x80, 0, 0, 9, 0, 0, 0, 0, 0, 0, 0, 7] ++
  [115, 121, 115, 0] ++ [0x02, 0x10, 0x00, 0x01, 0x34]

def c8Header : PduHeader := ⟨25, 0x80000009, 0, 7⟩

/-- C8's counterexample PDU: a 6-byte tail (`0x0210 0x0002 0x0034`) after the
`system_id` NUL. -/
def c8CounterPdu : List Nat :=
  [0, 0, 0, 26, 0x80, 0, 0, 9, 0, 0, 0, 0, 0, 0, 0, 7] ++
  [115, 121, 115, 0] ++ [0x02, 0x10, 0x00, 0x02, 0x00, 0x34]

def c8CounterHeader : PduHeader := ⟨26, 0x80000009, 0, 7⟩

/-! ## Helper lemmas -/

theorem fdiv_natCast (n m : Nat) :
    Int.fdiv (n : Int) (m : Int) = ((n / m : Nat) : Int) := by
  rw [Int.fdiv_eq_tdiv (by positivity) (by positivity)]
  exact (Int.ofNat_tdiv n m).symm

theorem fmod_natCast (n m : Nat) :
    Int.fmod (n : Int) (m : Int) = ((n % m : Nat) : Int) := by
  rw [Int.fmod_eq_tmod (by positivity) (by positivity)]
  exact (Int.ofNat_tmod n m).symm

theorem pad2i_natCast (k : Nat) : pad2i (k : Int) = pad2 k := by
  simp [pad2i]

/-- The two spellings of the esm_class message-type bits coincide:
`(x & 0b00111100) >> 2 = (x >> 2) & 0x0F`. -/
theorem esm_message_class_eq (x : Nat) :
    (x &&& 60) >>> 2 = (x >>> 2) &&& 15 := by
  apply Nat.eq_of_testBit_eq
  intro i
  simp only [Nat.testBit_shiftRight, Nat.testBit_and]
  have h : Nat.testBit 60 (2 + i) = Nat.testBit 15 i := by
    match i with
    | 0 => decide
    | 1 => decide
    | 2 => decide
    | 3 => decide
    | (n + 4) =>
      rw [Nat.testBit_lt_two_pow, Nat.testBit_lt_two_pow]
      · calc (15 : Nat) < 2 ^ 4 := by norm_num
          _ ≤ 2 ^ (n + 4) := Nat.pow_le_pow_right (by norm_num) (by omega)
      · calc (60 : Nat) < 2 ^ 6 := by norm_num
          _ ≤ 2 ^ (2 + (n + 4)) := Nat.pow_le_pow_right (by norm_num) (by omega)
  rw [h]

/-! ## Claim C2 — time symmetry -/

/-- Claim C2 (code bug).  The claim asserts
`smpp_time_to_datetime (datetime_to_smpp_time x) = x` for datetimes at
tenth-second resolution.  For `datetime(2024,1,1, microsecond=100000)` the
formatter emits `'240101000000100+'` (tenth-second digit `1`), but the parser
computes `microsecond = tenth_second * 1000000` (protocol.py line 291), i.e.
`1000000`, which the `datetime` constructor rejects (`ValueError`), so the
round trip raises instead of returning `x`. -/
theorem c2_time_symmetry_bug :
    datetime_to_smpp_time (.dt c2FailingInput) = .ok "240101000000100+" ∧
    smpp_time_to_datetime "240101000000100+" = .error .valueError := by
  constructor <;> rfl

/-! ## Claim C3 — absolute time format -/

/-- Claim C3 (code bug).  The claim (and spec §4.4) want
`nn = floor(|offset_seconds| / 900)` — `'04'` for a one-hour offset.  The
source computes `floor(offset.seconds / 900)` on the *normalized* timedelta
(protocol.py line 243), whose `seconds` component for −1 h is `82800`, so it
emits `'92'` — not even a valid SMPP quarter-hour count (≤ 48). -/
theorem c3_absolute_offset_bug :
    datetime_to_smpp_time (.dt c3FailingInput) = .ok "240101000000092-" ∧
    specAbsoluteTimeC3 c3FailingInput = "240101000000004-" ∧
    datetime_to_smpp_time (.dt c3FailingInput) ≠
      .ok (specAbsoluteTimeC3 c3FailingInput) := by
  refine ⟨rfl, rfl, ?_⟩
  intro h
  rw [show specAbsoluteTimeC3 c3FailingInput = "240101000000004-" from rfl,
    show datetime_to_smpp_time (.dt c3FailingInput) = .ok "240101000000092-"
      from rfl] at h
  exact absurd (Except.ok.inj h) (by decide)

/-! ## Claim C4 — relative time format -/

/-- Claim C4 (confirmed).  For every normalized duration of at most 63 weeks,
`datetime_to_smpp_time` produces exactly the claim's
`YYMMDDhhmmss000R` decomposition with 365-day years and 30-day months; the
2d 3h 4m 5s example yields `"000002030405000R"` and parses back to the same
duration; and anything strictly above 63 weeks fails with
`ValidityOutOfRange`. -/
theorem c4_relative_validity (t : TimeDelta) (hn : t.Normalized)
    (hd : 0 ≤ t.days) :
    (t.gt TimeDelta.weeks63 = false →
      datetime_to_smpp_time (.td t) = .ok (specRelativeTimeC4 t.days.toNat t.seconds)) ∧
    (t.gt TimeDelta.weeks63 = true →
      datetime_to_smpp_time (.td t) = .error .validityOutOfRange) ∧
    datetime_to_smpp_time (.td c4Example) = .ok "000002030405000R" ∧
    smpp_time_to_datetime "000002030405000R" = .ok (some (.td c4Example)) := by
  refine ⟨?_, ?_, rfl, rfl⟩
  · intro hgt
    have hdn : t.days = (t.days.toNat : Int) := (Int.toNat_of_nonneg hd).symm
    simp only [datetime_to_smpp_time, hgt, Bool.false_eq_true, if_false]
    rw [hdn]
    simp only [Int.toNat_natCast,
      show ((365 : Int)) = ((365 : Nat) : Int) from by norm_num,
      show ((30 : Int)) = ((30 : Nat) : Int) from by norm_num,
      fdiv_natCast, fmod_natCast, pad2i_natCast, specRelativeTimeC4,
      Nat.mod_mod_of_dvd t.seconds (by norm_num : (60 : Nat) ∣ 3600)]
  · intro hgt
    simp only [datetime_to_smpp_time, hgt, if_true]

/-- Witness for C4 at the 2d 3h 4m 5s example. -/
theorem c4_relative_validity_witness :
    datetime_to_smpp_time (.td c4Example) = .ok (specRelativeTimeC4 2 11045) :=
  (c4_relative_validity c4Example (by decide) (by decide)).1 (by decide)

/-! ## Error-classification lemmas for the encoder -/

theorem asciiEncode_error {s : String} {e : SmppErr}
    (h : asciiEncode s = .error e) : e = .encodingFailure := by
  unfold asciiEncode at h
  split at h
  · cases h
  · exact (Except.error.inj h).symm

theorem packBE_error {w n : Nat} {e : SmppErr}
    (h : packBE w n = .error e) : e = .structError := by
  unfold packBE at h
  split at h
  · cases h
  · exact (Except.error.inj h).symm

theorem datetime_to_smpp_time_error {t : SmppTime} {e : SmppErr}
    (h : datetime_to_smpp_time t = .error e) : e = .validityOutOfRange := by
  cases t with
  | dt d => simp [datetime_to_smpp_time] at h
  | td td =>
    by_cases hgt : TimeDelta.gt td TimeDelta.weeks63 = true
    · rw [show datetime_to_smpp_time (.td td) = .error .validityOutOfRange
        from by simp [datetime_to_smpp_time, hgt]] at h
      exact (Except.error.inj h).symm
    · simp [datetime_to_smpp_time, hgt] at h

theorem datetime_to_smpp_time_opt_error {t : Option SmppTime} {e : SmppErr}
    (h : datetime_to_smpp_time_opt t = .error e) : e = .validityOutOfRange := by
  cases t with
  | none => cases h
  | some t => exact datetime_to_smpp_time_error h

theorem tlv_error {p : OptionalParam} {e : SmppErr}
    (h : OptionalParam.tlv p = .error e) : e ≠ .shortMessageTooLong := by
  unfold OptionalParam.tlv at h
  simp only [bind, Except.bind] at h
  split at h
  · rename_i heq
    rw [← Except.error.inj h, packBE_error heq]; decide
  · split at h
    · split at h
      · rename_i heq
        rw [← Except.error.inj h, packBE_error heq]; decide
      · split at h
        · rename_i heq
          rw [← Except.error.inj h, packBE_error heq]; decide
        · cases h
    · split at h
      · rename_i heq
        rw [← Except.error.inj h, packBE_error heq]; decide
      · cases h
    · split at h
      · rename_i heq
        rw [← Except.error.inj h, asciiEncode_error heq]; decide
      · split at h
        · rename_i heq
          rw [← Except.error.inj h, packBE_error heq]; decide
        · cases h
    · rw [← Except.error.inj h]; decide

theorem tlvBytes_error {ps : List OptionalParam} {e : SmppErr}
    (h : tlvBytes ps = .error e) : e ≠ .shortMessageTooLong := by
  induction ps with
  | nil => cases h
  | cons p rest ih =>
    unfold tlvBytes at h
    simp only [bind, Except.bind] at h
    split at h
    · rename_i heq
      exact (Except.error.inj h) ▸ tlv_error heq
    · split at h
      · rename_i heq
        rw [Except.error.inj h] at heq
        exact ih heq
      · cases h

theorem pack_header_error {a b c d : Nat} {e : SmppErr}
    (h : pack_header a b c d = .error e) : e = .structError := by
  unfold pack_header at h
  simp only [bind, Except.bind] at h
  split at h
  · rename_i heq; exact (Except.error.inj h) ▸ packBE_error heq
  · split at h
    · rename_i heq; exact (Except.error.inj h) ▸ packBE_error heq
    · split at h
      · rename_i heq; exact (Except.error.inj h) ▸ packBE_error heq
      · split at h
        · rename_i heq; exact (Except.error.inj h) ▸ packBE_error heq
        · cases h

theorem find_codec_info_error {b c : Registry} {name : String} {e : SmppErr}
    (h : find_codec_info b c name = .error e) : e = .lookupError := by
  unfold find_codec_info at h
  split at h
  · cases h
  · split at h
    · cases h
    · exact (Except.error.inj h).symm

theorem smpp_encode_error {cfg : EncodingCfg} {enc : Option String}
    {eh text : String} {e : SmppErr}
    (h : smpp_encode cfg enc eh text = .error e) :
    e = .lookupError ∨ e = .encodingFailure := by
  unfold smpp_encode at h
  split at h
  · split at h
    · rename_i heq; exact .inl ((Except.error.inj h) ▸ find_codec_info_error heq)
    · split at h
      · cases h
      · split at h
        · rename_i heq
          exact .inl ((Except.error.inj h) ▸ find_codec_info_error heq)
        · split at h
          · cases h
          · exact .inr (Except.error.inj h).symm
  · split at h
    · split at h
      · rename_i heq
        exact .inl ((Except.error.inj h) ▸ find_codec_info_error heq)
      · split at h
        · cases h
        · exact .inr (Except.error.inj h).symm
    · exact .inl (Except.error.inj h).symm

/-- Inversion of a successful `smpp_encode`: either the fallback pinned
`ucs2` (only possible in the auto branch), or the encoding came through
unchanged — and in the explicit case the registry resolved it. -/
theorem smpp_encode_ok_inv {cfg : EncodingCfg} {enc : Option String}
    {eh text : String} {bs : List Nat} {e' : Option String}
    (h : smpp_encode cfg enc eh text = .ok (bs, e')) :
    (e' = some "ucs2" ∧ optStrTruthy enc = false) ∨
    (e' = enc ∧ (optStrTruthy enc = false ∨
      ∃ ci, find_codec_info cfg.builtin cfg.custom (enc.getD "") = .ok ci ∧
        ci.encode text eh = .ok bs)) := by
  by_cases htr : optStrTruthy enc = false
  · rw [show smpp_encode cfg enc eh text =
        (match find_codec_info cfg.builtin cfg.custom cfg.default_encoding with
        | .error e => .error e
        | .ok codec_info =>
          match codec_info.encode text eh with
          | .ok result => .ok (result, enc)
          | .error _ =>
            match find_codec_info cfg.builtin cfg.custom "ucs2" with
            | .error e => .error e
            | .ok codec_info2 =>
              match codec_info2.encode text eh with
              | .ok result => .ok (result, some "ucs2")
              | .error _ => .error .encodingFailure)
      from by unfold smpp_encode; rw [if_pos htr]] at h
    cases hfind : find_codec_info cfg.builtin cfg.custom cfg.default_encoding with
    | error e0 => rw [hfind] at h; exact Except.noConfusion h
    | ok ci0 =>
      simp only [hfind] at h
      cases henc : ci0.encode text eh with
      | ok r =>
        simp only [henc] at h
        have hp := Except.ok.inj h
        exact .inr ⟨(congrArg Prod.snd hp).symm, .inl htr⟩
      | error u =>
        simp only [henc] at h
        cases hf2 : find_codec_info cfg.builtin cfg.custom "ucs2" with
        | error e2 => rw [hf2] at h; exact Except.noConfusion h
        | ok ci2 =>
          simp only [hf2] at h
          cases he2 : ci2.encode text eh with
          | ok r2 =>
            simp only [he2] at h
            have hp := Except.ok.inj h
            exact .inl ⟨(congrArg Prod.snd hp).symm, htr⟩
          | error u2 => rw [he2] at h; exact Except.noConfusion h
  · cases enc with
    | none => simp [optStrTruthy] at htr
    | some name =>
      rw [show smpp_encode cfg (some name) eh text =
          (match find_codec_info cfg.builtin cfg.custom name with
          | .error e => .error e
          | .ok codec_info =>
            match codec_info.encode text eh with
            | .ok result => .ok (result, some name)
            | .error _ => .error .encodingFailure)
        from by unfold smpp_encode; rw [if_neg htr]] at h
      cases hfind : find_codec_info cfg.builtin cfg.custom name with
      | error e0 => rw [hfind] at h; exact Except.noConfusion h
      | ok ci =>
        simp only [hfind] at h
        cases henc : ci.encode text eh with
        | ok r =>
          simp only [henc] at h
          have hp := Except.ok.inj h
          have h1 : r = bs := by simpa using congrArg Prod.fst hp
          refine .inr ⟨(congrArg Prod.snd hp).symm, .inr ⟨ci, ?_, ?_⟩⟩
          · simpa using hfind
          · exact h1 ▸ henc
        | error u => rw [henc] at h; exact Except.noConfusion h

theorem packH_ok {n : Nat} {l : List Nat} (h : packH n = .ok l) :
    n < 65536 ∧ l = [n / 256, n % 256] := by
  unfold packH packBE at h
  split at h
  · rename_i hlt
    have hl := Except.ok.inj h
    have hn : n < 65536 := by simpa using hlt
    refine ⟨hn, ?_⟩
    rw [← hl]
    have h1 : n / 256 % 256 = n / 256 :=
      Nat.mod_eq_of_lt (Nat.div_lt_of_lt_mul (by omega))
    simp [List.range_succ, h1]
  · exact Except.noConfusion h

theorem mkSm_ok_no_payload_tag {m m' : SmRec} (h : mkSm m = .ok m') :
    ∀ q ∈ m.optional_params, q.tag ≠ OptionalTag.MESSAGE_PAYLOAD := by
  unfold mkSm at h
  split at h
  · exact Except.noConfusion h
  · rename_i hany
    intro q hq htag
    exact hany (List.any_eq_true.mpr ⟨q, hq, by simp [htag]⟩)

/-- Peeling one `Except.bind` off an error result. -/
theorem bind_error_elim {α β : Type} {x : Except SmppErr α}
    {f : α → Except SmppErr β} {err : SmppErr}
    (h : x.bind f = .error err)
    (hx : ∀ e', x = .error e' → e' ≠ .shortMessageTooLong)
    (hf : ∀ a, f a = .error err → err ≠ .shortMessageTooLong) :
    err ≠ .shortMessageTooLong := by
  cases x with
  | error e' =>
    have : Except.error (α := β) e' = .error err := by
      rw [← h]; rfl
    rw [← Except.error.inj this]
    exact hx e' rfl
  | ok a => exact hf a h

/-- Lemma: `Sm.assemble` can fail (non-ASCII strings, out-of-range bytes, an
out-of-range validity), but never with `ShortMessageTooLong`: that error is
raised only by the length check in `Sm.pduParts`. -/
theorem assemble_error {command : Nat} {m : SmRec} {p : SmParts} {err : SmppErr}
    (h : Sm.assemble command m p = .error err) : err ≠ .shortMessageTooLong := by
  unfold Sm.assemble at h
  simp only [bind] at h
  refine bind_error_elim h (fun e' he' => by rw [asciiEncode_error he']; decide)
    (fun serviceB h => ?_)
  refine bind_error_elim h (fun e' he' => by rw [packBE_error he']; decide)
    (fun srcTon h => ?_)
  refine bind_error_elim h (fun e' he' => by rw [packBE_error he']; decide)
    (fun srcNpi h => ?_)
  refine bind_error_elim h (fun e' he' => by rw [asciiEncode_error he']; decide)
    (fun srcNum h => ?_)
  refine bind_error_elim h (fun e' he' => by rw [packBE_error he']; decide)
    (fun dstTon h => ?_)
  refine bind_error_elim h (fun e' he' => by rw [packBE_error he']; decide)
    (fun dstNpi h => ?_)
  refine bind_error_elim h (fun e' he' => by rw [asciiEncode_error he']; decide)
    (fun dstNum h => ?_)
  refine bind_error_elim h (fun e' he' => by rw [packBE_error he']; decide)
    (fun esmB h => ?_)
  refine bind_error_elim h (fun e' he' => by rw [packBE_error he']; decide)
    (fun pidB h => ?_)
  refine bind_error_elim h (fun e' he' => by rw [packBE_error he']; decide)
    (fun prioB h => ?_)
  refine bind_error_elim h
    (fun e' he' => by rw [datetime_to_smpp_time_opt_error he']; decide)
    (fun schedS h => ?_)
  refine bind_error_elim h (fun e' he' => by rw [asciiEncode_error he']; decide)
    (fun schedB h => ?_)
  refine bind_error_elim h
    (fun e' he' => by rw [datetime_to_smpp_time_opt_error he']; decide)
    (fun validS h => ?_)
  refine bind_error_elim h (fun e' he' => by rw [asciiEncode_error he']; decide)
    (fun validB h => ?_)
  refine bind_error_elim h (fun e' he' => by rw [packBE_error he']; decide)
    (fun regB h => ?_)
  refine bind_error_elim h (fun e' he' => by rw [packBE_error he']; decide)
    (fun replB h => ?_)
  refine bind_error_elim h (fun e' he' => by rw [packBE_error he']; decide)
    (fun dcB h => ?_)
  refine bind_error_elim h (fun e' he' => by rw [packBE_error he']; decide)
    (fun smDefB h => ?_)
  refine bind_error_elim h (fun e' he' => by rw [packBE_error he']; decide)
    (fun smLenB h => ?_)
  refine bind_error_elim h (fun e' he' => tlvBytes_error he')
    (fun tlvs h => ?_)
  refine bind_error_elim h (fun e' he' => by rw [pack_header_error he']; decide)
    (fun header h => ?_)
  exact absurd h (by simp)

/-- Rewriting `Sm.pduParts` after a known `smpp_encode` result. -/
theorem pduParts_eq_of_encode {cfg : EncodingCfg} {m : SmRec} {bs : List Nat}
    {e' : Option String}
    (hse : smpp_encode cfg m.encoding m.error_handling (Sm.textToEncode m) =
      .ok (bs, e')) :
    Sm.pduParts cfg m =
      (match dcSelect e' with
      | .error e => .error e
      | .ok data_coding =>
        if 254 < bs.length ∧ m.short_message ≠ "" ∧ m.auto_message_payload = false then
          .error .shortMessageTooLong
        else if 254 < bs.length ∨ m.message_payload ≠ "" then
          match packH OptionalTag.MESSAGE_PAYLOAD.value, packH bs.length with
          | .ok tagB, .ok lenB => .ok ⟨[], tagB ++ lenB ++ bs, data_coding, 0, e'⟩
          | .error e, _ => .error e
          | _, .error e => .error e
        else .ok ⟨bs, [], data_coding, bs.length, e'⟩) := by
  unfold Sm.pduParts
  rw [hse]

/-- Rewriting `Sm.pduParts` after both `smpp_encode` and the data-coding selection. -/
theorem pduParts_eq_of_encode_dc {cfg : EncodingCfg} {m : SmRec} {bs : List Nat}
    {e' : Option String} {dc : Nat}
    (hse : smpp_encode cfg m.encoding m.error_handling (Sm.textToEncode m) =
      .ok (bs, e'))
    (hdc : dcSelect e' = .ok dc) :
    Sm.pduParts cfg m =
      (if 254 < bs.length ∧ m.short_message ≠ "" ∧ m.auto_message_payload = false then
        .error .shortMessageTooLong
      else if 254 < bs.length ∨ m.message_payload ≠ "" then
        match packH OptionalTag.MESSAGE_PAYLOAD.value, packH bs.length with
        | .ok tagB, .ok lenB => .ok ⟨[], tagB ++ lenB ++ bs, dc, 0, e'⟩
        | .error e, _ => .error e
        | _, .error e => .error e
      else .ok ⟨bs, [], dc, bs.length, e'⟩) := by
  have h1 := pduParts_eq_of_encode hse
  rw [hdc] at h1
  exact h1.trans rfl

/-- The promoted-payload success shape of `Sm.pduParts`. -/
theorem pduParts_promoted {cfg : EncodingCfg} {m : SmRec} {bs lenB : List Nat}
    {e' : Option String} {dc : Nat}
    (hse : smpp_encode cfg m.encoding m.error_handling (Sm.textToEncode m) =
      .ok (bs, e'))
    (hdc : dcSelect e' = .ok dc)
    (hA : ¬(254 < bs.length ∧ m.short_message ≠ "" ∧ m.auto_message_payload = false))
    (hB : 254 < bs.length ∨ m.message_payload ≠ "")
    (hpl : packH bs.length = .ok lenB) :
    Sm.pduParts cfg m = .ok ⟨[], [4, 36] ++ lenB ++ bs, dc, 0, e'⟩ := by
  rw [pduParts_eq_of_encode_dc hse hdc, if_neg hA, if_pos hB,
    show packH OptionalTag.MESSAGE_PAYLOAD.value = .ok [4, 36] from rfl, hpl]

/-- The promoted branch fails when the payload length does not pack. -/
theorem pduParts_promoted_packErr {cfg : EncodingCfg} {m : SmRec} {bs : List Nat}
    {e' : Option String} {dc : Nat} {e1 : SmppErr}
    (hse : smpp_encode cfg m.encoding m.error_handling (Sm.textToEncode m) =
      .ok (bs, e'))
    (hdc : dcSelect e' = .ok dc)
    (hA : ¬(254 < bs.length ∧ m.short_message ≠ "" ∧ m.auto_message_payload = false))
    (hB : 254 < bs.length ∨ m.message_payload ≠ "")
    (hpl : packH bs.length = .error e1) :
    Sm.pduParts cfg m = .error e1 := by
  rw [pduParts_eq_of_encode_dc hse hdc, if_neg hA, if_pos hB,
    show packH OptionalTag.MESSAGE_PAYLOAD.value = .ok [4, 36] from rfl, hpl]

/-- The unpromoted success shape of `Sm.pduParts`. -/
theorem pduParts_unpromoted {cfg : EncodingCfg} {m : SmRec} {bs : List Nat}
    {e' : Option String} {dc : Nat}
    (hse : smpp_encode cfg m.encoding m.error_handling (Sm.textToEncode m) =
      .ok (bs, e'))
    (hdc : dcSelect e' = .ok dc)
    (hA : ¬(254 < bs.length ∧ m.short_message ≠ "" ∧ m.auto_message_payload = false))
    (hB : ¬(254 < bs.length ∨ m.message_payload ≠ "")) :
    Sm.pduParts cfg m = .ok ⟨bs, [], dc, bs.length, e'⟩ := by
  rw [pduParts_eq_of_encode_dc hse hdc, if_neg hA, if_neg hB]

/-- The rejected-short-message shape of `Sm.pduParts`. -/
theorem pduParts_smtl {cfg : EncodingCfg} {m : SmRec} {bs : List Nat}
    {e' : Option String} {dc : Nat}
    (hse : smpp_encode cfg m.encoding m.error_handling (Sm.textToEncode m) =
      .ok (bs, e'))
    (hdc : dcSelect e' = .ok dc)
    (hA : 254 < bs.length ∧ m.short_message ≠ "" ∧ m.auto_message_payload = false) :
    Sm.pduParts cfg m = .error .shortMessageTooLong := by
  rw [pduParts_eq_of_encode_dc hse hdc, if_pos hA]

/-- When `smpp_encode` itself fails, `Sm.pduParts` propagates its error. -/
theorem pduParts_encode_error {cfg : EncodingCfg} {m : SmRec} {e0 : SmppErr}
    (hse : smpp_encode cfg m.encoding m.error_handling (Sm.textToEncode m) =
      .error e0) :
    Sm.pduParts cfg m = .error e0 := by
  unfold Sm.pduParts
  rw [hse]

/-- Under an aligned registry, the data-coding selection after a successful
`smpp_encode` always succeeds. -/
theorem dcSelect_ok_of_encode {cfg : EncodingCfg} {enc e' : Option String}
    {eh text : String} {bs : List Nat} (hal : AlignedRegistry cfg)
    (hse : smpp_encode cfg enc eh text = .ok (bs, e')) :
    ∃ dc, dcSelect e' = .ok dc := by
  by_cases htr : optStrTruthy e' = true
  · rcases smpp_encode_ok_inv hse with ⟨hu, _⟩ | ⟨henc, hrest⟩
    · subst hu
      exact ⟨8, by rfl⟩
    · subst henc
      rcases hrest with hfal | ⟨ci, hfind, _⟩
      · rw [hfal] at htr; cases htr
      · have hsome := hal _ _ hfind
        obtain ⟨v, hv⟩ := Option.isSome_iff_exists.mp hsome
        exact ⟨v, by simp [dcSelect, htr, hv]⟩
  · exact ⟨0, by simp [dcSelect, htr]⟩

/-! ## Claim C5 — short-message promotion -/

/-- Claim C5 (confirmed, with the registry assumed aligned with the
`SmppDataCoding` table — `codec.py` / `state.py` are not in src).  For a
constructed message: (1) `Sm.pdu` fails with `ShortMessageTooLong` exactly
when the parts stage does; (2) the parts stage fails with
`ShortMessageTooLong` exactly when the text encoded, its byte length exceeds
254, `short_message` is non-empty, and auto-promotion is off; (3) on
success, whenever the length exceeds 254 or `message_payload` was supplied,
the PDU's payload segment is the `MESSAGE_PAYLOAD` TLV `0x0424` (bytes
`4, 36`) with the length field equal to the encoded byte length, the on-wire
`sm_length` is 0 and the short-message segment is empty — and otherwise the
payload segment is empty — while the remaining TLVs never contain
`MESSAGE_PAYLOAD`. -/
theorem c5_short_message_promotion (cfg : EncodingCfg) (command : Nat)
    (m : SmRec) (hal : AlignedRegistry cfg) (hv : mkSm m = .ok m) :
    (Sm.pdu cfg command m = .error .shortMessageTooLong ↔
      Sm.pduParts cfg m = .error .shortMessageTooLong) ∧
    (Sm.pduParts cfg m = .error .shortMessageTooLong ↔
      ∃ bs e', smpp_encode cfg m.encoding m.error_handling (Sm.textToEncode m) =
          .ok (bs, e') ∧
        254 < bs.length ∧ m.short_message ≠ "" ∧ m.auto_message_payload = false) ∧
    (∀ bs e' p,
      smpp_encode cfg m.encoding m.error_handling (Sm.textToEncode m) = .ok (bs, e') →
      Sm.pduParts cfg m = .ok p →
      ((254 < bs.length ∨ m.message_payload ≠ "" →
        p.encoded_message_payload =
          4 :: 36 :: (bs.length / 256) :: (bs.length % 256) :: bs ∧
        p.sm_length = 0 ∧ p.encoded_short_message = []) ∧
      (¬(254 < bs.length ∨ m.message_payload ≠ "") →
        p.encoded_message_payload = [] ∧ p.sm_length = bs.length ∧
        p.encoded_short_message = bs)) ∧
      ∀ q ∈ m.optional_params, q.tag ≠ OptionalTag.MESSAGE_PAYLOAD) := by
  refine ⟨⟨?pdu_mp, ?pdu_mpr⟩, ⟨?parts_mp, ?parts_mpr⟩, ?promote⟩
  case pdu_mp =>
    intro h
    obtain ⟨res, hp⟩ : ∃ r, Sm.pduParts cfg m = r := ⟨_, rfl⟩
    cases res with
    | error e =>
      have h0 : Sm.pdu cfg command m = .error e := by
        unfold Sm.pdu; rw [hp]
      rw [h0] at h
      rw [Except.error.inj h] at hp
      exact hp
    | ok p =>
      have h0 : Sm.pdu cfg command m = Sm.assemble command m p := by
        unfold Sm.pdu; rw [hp]
      rw [h0] at h
      exact absurd rfl (assemble_error h)
  case pdu_mpr =>
    intro h
    unfold Sm.pdu
    rw [h]
  case parts_mp =>
    intro h
    obtain ⟨res, hse⟩ : ∃ r,
        smpp_encode cfg m.encoding m.error_handling (Sm.textToEncode m) = r :=
      ⟨_, rfl⟩
    match res, hse with
    | .error e0, hse =>
      rw [pduParts_encode_error hse] at h
      rcases smpp_encode_error hse with h1 | h1 <;>
        · rw [Except.error.inj h] at h1
          cases h1
    | .ok (bs, e'), hse =>
      obtain ⟨dc, hdc⟩ := dcSelect_ok_of_encode hal hse
      by_cases hA : 254 < bs.length ∧ m.short_message ≠ "" ∧
          m.auto_message_payload = false
      · exact ⟨bs, e', hse, hA⟩
      · by_cases hB : 254 < bs.length ∨ m.message_payload ≠ ""
        · cases hpl : packH bs.length with
          | ok lenB =>
            rw [pduParts_promoted hse hdc hA hB hpl] at h
            exact Except.noConfusion h
          | error e1 =>
            rw [pduParts_promoted_packErr hse hdc hA hB hpl] at h
            rw [Except.error.inj h] at hpl
            exact absurd (packBE_error hpl) (by decide)
        · rw [pduParts_unpromoted hse hdc hA hB] at h
          exact Except.noConfusion h
  case parts_mpr =>
    rintro ⟨bs, e', hse, h254, hsm, hauto⟩
    obtain ⟨dc, hdc⟩ := dcSelect_ok_of_encode hal hse
    exact pduParts_smtl hse hdc ⟨h254, hsm, hauto⟩
  case promote =>
    intro bs e' p hse hp
    refine ⟨?_, mkSm_ok_no_payload_tag hv⟩
    obtain ⟨dc, hdc⟩ := dcSelect_ok_of_encode hal hse
    by_cases hA : 254 < bs.length ∧ m.short_message ≠ "" ∧
        m.auto_message_payload = false
    · rw [pduParts_smtl hse hdc hA] at hp
      exact Except.noConfusion hp
    · by_cases hB : 254 < bs.length ∨ m.message_payload ≠ ""
      · cases hpl : packH bs.length with
        | error e1 =>
          rw [pduParts_promoted_packErr hse hdc hA hB hpl] at hp
          exact Except.noConfusion hp
        | ok lenB =>
          rw [pduParts_promoted hse hdc hA hB hpl] at hp
          obtain ⟨hlt, hlen⟩ := packH_ok hpl
          have hpp := Except.ok.inj hp
          constructor
          · intro _
            refine ⟨?_, ?_, ?_⟩
            · rw [← hpp]
              simp [hlen]
            · rw [← hpp]
            · rw [← hpp]
          · intro hc
            exact absurd hB hc
      · rw [pduParts_unpromoted hse hdc hA hB] at hp
        have hpp := Except.ok.inj hp
        constructor
        · intro hc
          exact absurd hc hB
        · intro _
          refine ⟨?_, ?_, ?_⟩ <;> rw [← hpp]

/-- Witness material: the witness registry is aligned with the data-coding
table by construction. -/
theorem wCfg_aligned : AlignedRegistry wCfg := by
  intro name ci h
  simp only [find_codec_info, wCfg] at h
  by_cases h1 : name = "ucs2"
  · subst h1; decide
  · rw [if_neg h1] at h
    by_cases h2 : (dataCodingOfName name).isSome = true
    · exact h2
    · rw [if_neg h2] at h
      exact Except.noConfusion h

set_option maxRecDepth 10000 in
/-- Witness for C5: a 300-byte short message with promotion disabled is
rejected by `Sm.pdu` with `ShortMessageTooLong`. -/
theorem c5_short_message_promotion_witness :
    Sm.pdu wCfg SUBMIT_SM c5Message = .error .shortMessageTooLong :=
  (c5_short_message_promotion wCfg SUBMIT_SM c5Message wCfg_aligned rfl).1.mpr
    ((c5_short_message_promotion wCfg SUBMIT_SM c5Message wCfg_aligned rfl).2.1.mpr
      ⟨List.replicate 300 97, none, rfl, by decide, by decide, rfl⟩)

/-! ## Claim C6 — auto-encoding policy -/

/-- When `smpp_encode` itself fails, `Sm.pduParts` propagates it; when the
data-coding selection fails, the `KeyError` propagates. -/
theorem pduParts_dc_error {cfg : EncodingCfg} {m : SmRec} {bs : List Nat}
    {e' : Option String} {e1 : SmppErr}
    (hse : smpp_encode cfg m.encoding m.error_handling (Sm.textToEncode m) =
      .ok (bs, e'))
    (hdc : dcSelect e' = .error e1) :
    Sm.pduParts cfg m = .error e1 := by
  have h1 := pduParts_eq_of_encode hse
  rw [hdc] at h1
  exact h1.trans rfl

/-- Whatever branch `Sm.pduParts` succeeds through, the `data_coding` it
stores is the selected one. -/
theorem pduParts_ok_dc {cfg : EncodingCfg} {m : SmRec} {bs : List Nat}
    {e' : Option String} {dc : Nat} {p : SmParts}
    (hse : smpp_encode cfg m.encoding m.error_handling (Sm.textToEncode m) =
      .ok (bs, e'))
    (hdc : dcSelect e' = .ok dc)
    (hp : Sm.pduParts cfg m = .ok p) : p.data_coding = dc := by
  by_cases hA : 254 < bs.length ∧ m.short_message ≠ "" ∧
      m.auto_message_payload = false
  · rw [pduParts_smtl hse hdc hA] at hp
    exact Except.noConfusion hp
  · by_cases hB : 254 < bs.length ∨ m.message_payload ≠ ""
    · cases hpl : packH bs.length with
      | error e1 =>
        rw [pduParts_promoted_packErr hse hdc hA hB hpl] at hp
        exact Except.noConfusion hp
      | ok lenB =>
        rw [pduParts_promoted hse hdc hA hB hpl] at hp
        rw [← Except.ok.inj hp]
    · rw [pduParts_unpromoted hse hdc hA hB] at hp
      rw [← Except.ok.inj hp]

/-- Claim C6 (confirmed; `find_codec_info` and `SmppDataCoding` modelled from
the spec, as `codec.py`/`state.py` are not in src).  With no explicit
encoding, the configured default is tried first; an `EncodingFailure` there
falls back to `ucs2` and pins `encoding = "ucs2"`; an explicit encoding is
used verbatim with no fallback; and the `data_coding` byte the PDU stage
stores is `SmppDataCoding[encoding]` when the post-encode encoding field is
truthy and `0` otherwise. -/
theorem c6_auto_encoding_policy (cfg : EncodingCfg) (eh text : String)
    (cid ciu : CodecInfo)
    (hdef : find_codec_info cfg.builtin cfg.custom cfg.default_encoding = .ok cid)
    (hucs : find_codec_info cfg.builtin cfg.custom "ucs2" = .ok ciu) :
    (∀ bs, cid.encode text eh = .ok bs →
      smpp_encode cfg none eh text = .ok (bs, none)) ∧
    (∀ bs2, cid.encode text eh = .error () → ciu.encode text eh = .ok bs2 →
      smpp_encode cfg none eh text = .ok (bs2, some "ucs2")) ∧
    (∀ name ci, name ≠ "" →
      find_codec_info cfg.builtin cfg.custom name = .ok ci →
      (∀ bs, ci.encode text eh = .ok bs →
        smpp_encode cfg (some name) eh text = .ok (bs, some name)) ∧
      (ci.encode text eh = .error () →
        smpp_encode cfg (some name) eh text = .error .encodingFailure)) ∧
    (∀ (m : SmRec) bs e' p,
      smpp_encode cfg m.encoding m.error_handling (Sm.textToEncode m) = .ok (bs, e') →
      Sm.pduParts cfg m = .ok p →
      (optStrTruthy e' = true →
        dataCodingOfName (e'.getD "") = some p.data_coding) ∧
      (optStrTruthy e' = false → p.data_coding = 0)) := by
  have h1 : smpp_encode cfg none eh text =
      (match cid.encode text eh with
      | .ok result => .ok (result, (none : Option String))
      | .error _ =>
        match find_codec_info cfg.builtin cfg.custom "ucs2" with
        | .error e => .error e
        | .ok codec_info2 =>
          match codec_info2.encode text eh with
          | .ok result => .ok (result, some "ucs2")
          | .error _ => .error .encodingFailure) := by
    unfold smpp_encode
    rw [if_pos (show optStrTruthy none = false from rfl), hdef]
  refine ⟨?_, ?_, ?_, ?_⟩
  · intro bs hb
    rw [h1, hb]
  · intro bs2 hbe hb2
    rw [h1, hbe, hucs]
    simp only [hb2]
  · intro name ci hname hfind
    have h2a : smpp_encode cfg (some name) eh text =
        (match find_codec_info cfg.builtin cfg.custom name with
        | .error e => .error e
        | .ok codec_info =>
          match codec_info.encode text eh with
          | .ok result => .ok (result, some name)
          | .error _ => .error .encodingFailure) := by
      have hcond : ¬(optStrTruthy (some name) = false) := by
        simp [optStrTruthy, hname]
      unfold smpp_encode
      rw [if_neg hcond]
    have h2 : smpp_encode cfg (some name) eh text =
        (match ci.encode text eh with
        | .ok result => .ok (result, some name)
        | .error _ => .error .encodingFailure) :=
      h2a.trans (by rw [hfind])
    constructor
    · intro bs hb
      rw [h2, hb]
    · intro hbe
      rw [h2, hbe]
  · intro m bs e' p hse hp
    by_cases htr : optStrTruthy e' = true
    · constructor
      · intro _
        cases hdn : dataCodingOfName (e'.getD "") with
        | none =>
          have hdc : dcSelect e' = .error .keyError := by
            simp [dcSelect, htr, hdn]
          rw [pduParts_dc_error hse hdc] at hp
          exact Except.noConfusion hp
        | some v =>
          have hdc : dcSelect e' = .ok v := by
            simp [dcSelect, htr, hdn]
          rw [pduParts_ok_dc hse hdc hp]
      · intro hfal
        rw [hfal] at htr
        cases htr
    · constructor
      · intro hTrue
        exact absurd hTrue htr
      · intro _
        have hdc : dcSelect e' = .ok 0 := by
          simp [dcSelect, htr]
        exact pduParts_ok_dc hse hdc hp

/-- Witness for C6: the strict default codec fails on `'é'`, the fallback
wide codec succeeds, and the encoding is pinned to `ucs2`. -/
theorem c6_auto_encoding_policy_witness :
    smpp_encode wCfg none "strict" "é" = .ok ([0, 233], some "ucs2") :=
  (c6_auto_encoding_policy wCfg "strict" "é" asciiCodec wideCodec rfl rfl).2.1
    [0, 233] rfl rfl

/-! ## Claim C7 — delivery-receipt extraction -/

/-- Reduction of `DeliverSm.from_pdu` once the `Sm`-level decode is known. -/
theorem deliverSm_from_pdu_eq {cfg : EncodingCfg} {pdu : List Nat}
    {header : PduHeader} {d : DeliverSmRec}
    (hbase : DeliverSm.base_from_pdu cfg pdu header = .ok d) :
    DeliverSm.from_pdu cfg pdu header =
      (if (d.sm.esm_class &&& 60) >>> 2 = 1 then
        Except.bind
          (receiptLoop d.sm.short_message.toList
            (d.sm.short_message.toList.length + 2) 0 [])
          (fun rcpt_data =>
            Except.ok { d with receipt := some (
              if receiptValueTruthy
                  ((rcpt_data.find? (fun p => p.1 = "id")).map Prod.snd) then
                rcpt_data
              else
                match d.sm.optional_params.find?
                    (fun p => p.tag = OptionalTag.RECEIPTED_MESSAGE_ID) with
                | some id_param =>
                  receiptInsert rcpt_data "id" (receiptValueOfOptValue id_param.value)
                | none => rcpt_data) })
      else .ok d) := by
  unfold DeliverSm.from_pdu
  rw [hbase]
  rfl

set_option maxRecDepth 40000 in
/-- Claim C7 (confirmed).  For every `deliver_sm` PDU whose `Sm`-level decode
succeeds with the claim's exact receipt text and whose esm_class
message-type bits `(esm_class >> 2) & 0x0F` equal 1, `DeliverSm.from_pdu`
populates the receipt with `id="abc"`, `sub=1`, `dlvrd=1` (integers), the
two `%y%m%d%H%M` dates, `stat="DELIVRD"`, `err="000"` and `text="hello"`,
in that insertion order. -/
theorem c7_receipt_extraction (cfg : EncodingCfg) (pdu : List Nat)
    (header : PduHeader) (d : DeliverSmRec)
    (hbase : DeliverSm.base_from_pdu cfg pdu header = .ok d)
    (hshort : d.sm.short_message = c7ReceiptText)
    (hclass : (d.sm.esm_class >>> 2) &&& 0x0F = 1) :
    DeliverSm.from_pdu cfg pdu header =
      .ok { d with receipt := some c7ExpectedReceipt } := by
  rw [deliverSm_from_pdu_eq hbase]
  have hcl : (d.sm.esm_class &&& 60) >>> 2 = 1 := by
    rw [esm_message_class_eq]; exact hclass
  rw [if_pos hcl, hshort]
  rw [show receiptLoop c7ReceiptText.toList (c7ReceiptText.toList.length + 2) 0 []
    = .ok c7ExpectedReceipt from by rfl]
  rfl

/-- The decoded `Sm` record of the C7 witness PDU: the message as sent, with
`log_id` cleared (not on the wire). -/
def c7Decoded : SmRec := { c7Message with log_id := "" }

set_option maxRecDepth 40000 in
/-- Witness for C7 at a concrete wire PDU. -/
theorem c7_receipt_extraction_witness :
    DeliverSm.from_pdu wCfg c7Pdu c7Header =
      .ok { sm := c7Decoded, receipt := some c7ExpectedReceipt } :=
  c7_receipt_extraction wCfg c7Pdu c7Header ⟨c7Decoded, none⟩ (by rfl) rfl rfl

/-! ## Claim C8 — BindTransceiverResp version parse -/

/-- Claim C8 (corrected).  After the `system_id` C-octet string, the version
byte is read only when *exactly five* bytes remain before `pdu_length`
(`index + 4 + 1 == header.pdu_length`, protocol.py line 821); when bytes
remain in any other number, `sc_interface_version` stays `None` — contrary to
the claim's "whenever any bytes remain".  The claim's literal example (tail
`0x0210 0x0001 0x34`, five bytes) does yield `0x34`. -/
theorem c8_sc_interface_version (pdu : List Nat) (header : PduHeader)
    (nulIdx : Nat) (sysId : String)
    (h0 : findNulFrom pdu 16 = some nulIdx)
    (hdec : asciiDecode (byteSlice pdu 16 (nulIdx - 16)) = .ok sysId) :
    (∀ v, nulIdx + 1 < header.pdu_length → nulIdx + 6 = header.pdu_length →
      getInteger 1 pdu (nulIdx + 5) = .ok v →
      BindTransceiverResp.from_pdu pdu header =
        .ok ⟨sysId, header.sequence_num, header.command_status, some v⟩) ∧
    (nulIdx + 1 < header.pdu_length → nulIdx + 6 ≠ header.pdu_length →
      BindTransceiverResp.from_pdu pdu header =
        .ok ⟨sysId, header.sequence_num, header.command_status, none⟩) ∧
    (¬(nulIdx + 1 < header.pdu_length) →
      BindTransceiverResp.from_pdu pdu header =
        .ok ⟨sysId, header.sequence_num, header.command_status, none⟩) := by
  have h1 : BindTransceiverResp.from_pdu pdu header =
      Except.bind (asciiDecode (byteSlice pdu 16 (nulIdx - 16)))
        (fun system_id =>
          if nulIdx + 1 < header.pdu_length then
            (if nulIdx + 1 + 4 + 1 = header.pdu_length then
              Except.bind (getInteger 1 pdu (nulIdx + 1 + 4))
                (fun v => Except.ok ⟨system_id, header.sequence_num,
                  header.command_status, some v⟩)
            else Except.ok ⟨system_id, header.sequence_num,
              header.command_status, none⟩)
          else Except.ok ⟨system_id, header.sequence_num,
            header.command_status, none⟩) := by
    unfold BindTransceiverResp.from_pdu
    rw [h0]
    rfl
  have h2 : BindTransceiverResp.from_pdu pdu header =
      (if nulIdx + 1 < header.pdu_length then
        (if nulIdx + 1 + 4 + 1 = header.pdu_length then
          Except.bind (getInteger 1 pdu (nulIdx + 1 + 4))
            (fun v => Except.ok ⟨sysId, header.sequence_num,
              header.command_status, some v⟩)
        else Except.ok ⟨sysId, header.sequence_num,
          header.command_status, none⟩)
      else Except.ok ⟨sysId, header.sequence_num,
        header.command_status, none⟩) := by
    rw [h1, hdec]
    rfl
  refine ⟨?_, ?_, ?_⟩
  · intro v hlt hexact hv
    rw [h2, if_pos hlt, if_pos (by omega : nulIdx + 1 + 4 + 1 = header.pdu_length),
      show nulIdx + 1 + 4 = nulIdx + 5 from by omega, hv]
    rfl
  · intro hlt hne
    rw [h2, if_pos hlt, if_neg (by omega : ¬(nulIdx + 1 + 4 + 1 = header.pdu_length))]
  · intro hlt
    rw [h2, if_neg hlt]

/-- Counterexample for C8 as stated: six bytes remain after the `system_id`
NUL (a TLV `0x0210` with a two-byte value), so per the claim the parser
"skips the 4-byte TLV header and reads the next byte"; the code instead
leaves `sc_interface_version = None` because the tail is not exactly five
bytes. -/
theorem c8_sc_interface_version_counterexample :
    BindTransceiverResp.from_pdu c8CounterPdu c8CounterHeader =
      .ok ⟨"sys", 7, 0, none⟩ ∧
    findNulFrom c8CounterPdu 16 = some 19 ∧
    19 + 1 < c8CounterHeader.pdu_length := by
  refine ⟨rfl, rfl, by decide⟩

/-- Witness for C8 (amended) at the claim's own five-byte example. -/
theorem c8_sc_interface_version_witness :
    BindTransceiverResp.from_pdu c8Pdu c8Header = .ok ⟨"sys", 7, 0, some 0x34⟩ :=
  (c8_sc_interface_version c8Pdu c8Header 19 "sys" rfl rfl).1 0x34
    (by decide) (by decide) rfl

/-! ## Claim C9 — constructor validation -/

/-- Claim C9 (confirmed).  `Sm` construction fails — with `InvalidArgument`,
creating no object — exactly when a `MESSAGE_PAYLOAD` optional parameter is
present, both text fields are empty, or both are non-empty; `SubmitSm`
additionally rejects an empty `log_id`; and a construction satisfying none
of these conditions succeeds. -/
theorem c9_constructor_validation (m : SmRec) :
    (mkSm m = .error .invalidArgument ↔
      m.optional_params.any (fun p => p.tag = OptionalTag.MESSAGE_PAYLOAD) = true ∨
      (m.short_message = "" ∧ m.message_payload = "") ∨
      (m.short_message ≠ "" ∧ m.message_payload ≠ "")) ∧
    (mkSubmitSm m = .error .invalidArgument ↔
      m.log_id = "" ∨
      m.optional_params.any (fun p => p.tag = OptionalTag.MESSAGE_PAYLOAD) = true ∨
      (m.short_message = "" ∧ m.message_payload = "") ∨
      (m.short_message ≠ "" ∧ m.message_payload ≠ "")) ∧
    (¬(m.optional_params.any (fun p => p.tag = OptionalTag.MESSAGE_PAYLOAD) = true ∨
        (m.short_message = "" ∧ m.message_payload = "") ∨
        (m.short_message ≠ "" ∧ m.message_payload ≠ "")) →
      mkSm m = .ok m) ∧
    (¬(m.log_id = "" ∨
        m.optional_params.any (fun p => p.tag = OptionalTag.MESSAGE_PAYLOAD) = true ∨
        (m.short_message = "" ∧ m.message_payload = "") ∨
        (m.short_message ≠ "" ∧ m.message_payload ≠ "")) →
      mkSubmitSm m = .ok m) := by
  have hA : mkSm m = .error .invalidArgument ↔
      m.optional_params.any (fun p => p.tag = OptionalTag.MESSAGE_PAYLOAD) = true ∨
      (m.short_message = "" ∧ m.message_payload = "") ∨
      (m.short_message ≠ "" ∧ m.message_payload ≠ "") := by
    unfold mkSm
    split_ifs with h1 h2 h3
    · exact ⟨fun _ => .inl h1, fun _ => rfl⟩
    · exact ⟨fun _ => .inr (.inl h2), fun _ => rfl⟩
    · exact ⟨fun _ => .inr (.inr h3), fun _ => rfl⟩
    · exact ⟨fun h => absurd h (by simp),
        fun hc => hc.elim (fun x => absurd x h1)
          (fun y => y.elim (fun z => absurd z h2) (fun w => absurd w h3))⟩
  have hOk : ¬(m.optional_params.any
        (fun p => p.tag = OptionalTag.MESSAGE_PAYLOAD) = true ∨
      (m.short_message = "" ∧ m.message_payload = "") ∨
      (m.short_message ≠ "" ∧ m.message_payload ≠ "")) →
      mkSm m = .ok m := by
    intro hna
    unfold mkSm
    split_ifs with h1 h2 h3
    · exact absurd (.inl h1) hna
    · exact absurd (.inr (.inl h2)) hna
    · exact absurd (.inr (.inr h3)) hna
    · rfl
  refine ⟨hA, ?_, hOk, ?_⟩
  · unfold mkSubmitSm
    split_ifs with hl
    · exact ⟨fun _ => .inl hl, fun _ => rfl⟩
    · exact ⟨fun h => .inr (hA.mp h),
        fun hc => hc.elim (fun x => absurd x hl) hA.mpr⟩
  · intro hna
    unfold mkSubmitSm
    rw [if_neg (fun hl => hna (.inl hl))]
    exact hOk (fun hc => hna (.inr hc))

/-- Witness for C9: a well-formed `SubmitSm` construction succeeds. -/
theorem c9_constructor_validation_witness :
    mkSm c1Message = .ok c1Message ∧ mkSubmitSm c1Message = .ok c1Message :=
  ⟨(c9_constructor_validation c1Message).2.2.1 (by decide),
    (c9_constructor_validation c1Message).2.2.2 (by decide)⟩

/-! ## Claim C10 — `sm_length = 0` PDUs are never decodable -/

/-- Field projection of a successful `smArgsOfRaw`. -/
theorem smArgsOfRaw_ok {raw : SmRaw} {header : PduHeader} {args : SmRec}
    (h : smArgsOfRaw raw header = .ok args) :
    args.short_message = raw.short_message ∧
    args.message_payload = raw.message_payload ∧ args.log_id = "" := by
  unfold smArgsOfRaw at h
  simp only [bind, Except.bind, pure, Except.pure] at h
  split at h
  · exact Except.noConfusion h
  · split at h
    · exact Except.noConfusion h
    · rw [← Except.ok.inj h]
      exact ⟨rfl, rfl, rfl⟩

/-- Claim C10 (confirmed).  A syntactically well-formed `Sm` PDU whose on-wire
`sm_length` is 0 and which carries no `MESSAGE_PAYLOAD` TLV decodes to empty
`short_message` and `message_payload`, and the constructor's
exactly-one-non-empty invariant then rejects it (and for `SubmitSm` the
empty `log_id` does too): `from_pdu` never returns a message for such a
PDU. -/
theorem c10_empty_sm_never_decodable (cfg : EncodingCfg) (pdu : List Nat)
    (header : PduHeader) (raw : SmRaw)
    (hraw : smParseRaw cfg pdu header = .ok raw)
    (hlen : raw.sm_length = 0)
    (hshort : raw.short_message = "")
    (hnp : raw.message_payload = "") :
    (∀ r, SubmitSm.from_pdu cfg pdu header ≠ .ok r) ∧
    (∀ d, DeliverSm.from_pdu cfg pdu header ≠ .ok d) := by
  have hbase : ∀ args, smArgsOfRaw raw header = .ok args →
      mkSm args = .error .invalidArgument := by
    intro args hargs
    obtain ⟨hs, hp, _⟩ := smArgsOfRaw_ok hargs
    unfold mkSm
    split_ifs with h1 h2 h3
    · rfl
    · rfl
    · exact absurd ⟨hs.trans hshort, hp.trans hnp⟩ h2
    · exact absurd ⟨hs.trans hshort, hp.trans hnp⟩ h2
  constructor
  · intro r hok
    unfold SubmitSm.from_pdu at hok
    simp only [bind, Except.bind, hraw] at hok
    cases hargs : smArgsOfRaw raw header with
    | error e =>
      rw [hargs] at hok
      exact Except.noConfusion hok
    | ok args =>
      rw [hargs] at hok
      obtain ⟨_, _, hl⟩ := smArgsOfRaw_ok hargs
      have hok2 : (if args.log_id = "" then
          Except.error (α := SmRec) SmppErr.invalidArgument
        else mkSm args) = Except.ok r := hok
      rw [if_pos hl] at hok2
      exact Except.noConfusion hok2
  · intro d hok
    unfold DeliverSm.from_pdu at hok
    cases hb : DeliverSm.base_from_pdu cfg pdu header with
    | error e =>
      rw [hb] at hok
      exact Except.noConfusion hok
    | ok d0 =>
      exfalso
      unfold DeliverSm.base_from_pdu at hb
      simp only [bind, Except.bind, hraw] at hb
      cases hargs : smArgsOfRaw raw header with
      | error e =>
        rw [hargs] at hb
        exact Except.noConfusion hb
      | ok args =>
        rw [hargs] at hb
        have hb2 : (mkSm args).map (fun r => (⟨r, none⟩ : DeliverSmRec)) =
            Except.ok d0 := hb
        rw [hbase args hargs] at hb2
        exact Except.noConfusion hb2

/-- Witness for C10: the concrete empty `deliver_sm` PDU. -/
theorem c10_empty_sm_never_decodable_witness :
    SubmitSm.from_pdu wCfg c10Pdu c10Header ≠ .ok c1Message ∧
    DeliverSm.from_pdu wCfg c10Pdu c10Header ≠ .ok ⟨c1Message, none⟩ :=
  ⟨(c10_empty_sm_never_decodable wCfg c10Pdu c10Header
      ⟨"CMT", ⟨"1", 1, 1⟩, ⟨"2", 1, 1⟩, 0, 0, 0, "", "", 1, 0, 1, "ascii",
        0, 0, "", "", []⟩ rfl rfl rfl rfl).1 c1Message,
    (c10_empty_sm_never_decodable wCfg c10Pdu c10Header
      ⟨"CMT", ⟨"1", 1, 1⟩, ⟨"2", 1, 1⟩, 0, 0, 0, "", "", 1, 0, 1, "ascii",
        0, 0, "", "", []⟩ rfl rfl rfl rfl).2 ⟨c1Message, none⟩⟩

/-! ## Claim C1 — round trip -/

set_option maxRecDepth 40000 in
/-- Claim C1 (code bug).  The round trip fails for *every* `SubmitSm`:
`Sm.from_pdu` always constructs the decoded message with `log_id = ''`
(protocol.py line 450), and `SubmitSm.__init__` rejects an empty `log_id`
(line 527), so `SubmitSm.from_pdu` — the dispatch target for `submit_sm` —
raises `InvalidArgument` on every PDU instead of returning a message.  Here:
`c1Message` is constructible, encodes successfully, and
`from_pdu(pdu(m), parse_header(pdu(m)[0..16]))` with the same configuration
yields the `InvalidArgument` error, not a message equal to `m` modulo the
claim's field list. -/
theorem c1_round_trip_bug :
    mkSubmitSm c1Message = .ok c1Message ∧
    (∃ bs, Sm.pdu wCfg SUBMIT_SM c1Message = .ok bs) ∧
    c1RoundTrip = .error .invalidArgument := by
  exact ⟨rfl, ⟨_, rfl⟩, rfl⟩

end Aiosmpplib
